import Mathlib

/-!
# HealthCare-prediction: prediction adapter, persistence hook and event emitter

A shallow embedding of

* `server/src/utils/mlService.js` (`getPrediction`, `calculateFallbackPrediction`),
* `server/src/models/Patient.js` (the `pre('save')` hook),
* `server/src/utils/socket.js` (socket handlers and the three emitters),
* `server/src/routes/patients.js` (the create, update and assign handlers),

followed by the theorems that settle the specification's claims about them.

JavaScript numbers are IEEE-754 binary64 values.  They are modelled exactly:
every finite binary64 value is an integer multiple of `2^-1074`, so a finite
number is carried as that integer, and every arithmetic result is rounded to
53 significant bits, ties to even, as the hardware does.
-/

namespace HealthCare

/-! ## JavaScript numbers -/

/-- Nearest integer to `n / d`, a tie going to the even neighbour. -/
def roundHalfEven (n d : Nat) : Nat :=
  let q := n / d
  let r := n % d
  if 2 * r < d then q
  else if d < 2 * r then q + 1
  else if q % 2 = 0 then q else q + 1

/-- Binary search for the index of the highest set bit: with `i` rounds left
and `acc` already known to be at most that index, try `acc + 2^(i-1)`. -/
def bitLengthAux : Nat → Nat → Nat → Nat
  | 0, _, acc => acc
  | i + 1, n, acc =>
    if n >>> (acc + 2 ^ i) = 0 then bitLengthAux i n acc
    else bitLengthAux i n (acc + 2 ^ i)

/-- Number of binary digits of `n` (for `n < 2^4096`, which covers every
quantity a binary64 operation produces). -/
def bitLength (n : Nat) : Nat :=
  if n = 0 then 0 else bitLengthAux 12 n 0 + 1

/-- The binary64 grid value nearest to `s / d` units, one unit being `2^-1074`:
values below `2^53` units lie on the unit grid (subnormals and the first
binade), larger ones keep 53 significant bits. Ties go to the even mantissa. -/
def roundScaled (s d : Nat) : Nat :=
  let k := bitLength (s / d) - 53
  roundHalfEven s (d <<< k) <<< k

/-- A JavaScript number: `NaN`, an infinity, or a finite binary64 value `v * 2^-1074`.
The sign of zero is not tracked (no operation below observes it). -/
inductive JSNum where
  | nan
  | negInf
  | fin (v : Int)
  | posInf
  deriving DecidableEq, Repr

namespace JSNum

/-- A rounded magnitude with its sign, overflowing to an infinity from `2^1024` on. -/
def ofMagnitude (neg : Bool) (m : Nat) : JSNum :=
  if 1 <<< 2098 ≤ m then (if neg then negInf else posInf)
  else if neg then fin (-(m : Int)) else fin (m : Int)

/-- The number a decimal or integer literal denotes: the binary64 nearest to `n / d`. -/
def ofRatio (n d : Nat) : JSNum :=
  ofMagnitude false (roundScaled (n <<< 1074) d)

/-- IEEE addition `a + b`: the exact sum, rounded to nearest, ties to even. -/
def add : JSNum → JSNum → JSNum
  | nan, _ => nan
  | _, nan => nan
  | posInf, negInf => nan
  | negInf, posInf => nan
  | posInf, _ => posInf
  | _, posInf => posInf
  | negInf, _ => negInf
  | _, negInf => negInf
  | fin a, fin b => ofMagnitude (decide (a + b < 0)) (roundScaled (a + b).natAbs 1)

/-- The comparison `a < b`; false as soon as one side is `NaN`. -/
def lt : JSNum → JSNum → Bool
  | nan, _ => false
  | _, nan => false
  | negInf, negInf => false
  | negInf, _ => true
  | _, negInf => false
  | posInf, _ => false
  | fin _, posInf => true
  | fin a, fin b => decide (a < b)

/-- The comparison `a > b`. -/
def gt (a b : JSNum) : Bool := lt b a

/-- The comparison `a >= b`; false as soon as one side is `NaN`. -/
def ge (a b : JSNum) : Bool :=
  match a, b with
  | nan, _ => false
  | _, nan => false
  | _, _ => !(lt a b)

/-- The comparison `a <= b`. -/
def le (a b : JSNum) : Bool := ge b a

/-- JavaScript `Math.min(a, b)`: `NaN` if either argument is `NaN`. -/
def min (a b : JSNum) : JSNum :=
  match a, b with
  | nan, _ => nan
  | _, nan => nan
  | _, _ => if lt b a then b else a

/-- Truthiness of a number: everything but `0` and `NaN`. -/
def truthy : JSNum → Bool
  | nan => false
  | fin v => decide (v ≠ 0)
  | _ => true

end JSNum

/-- What `Number.prototype.toFixed(3)` prints, kept as data instead of characters. -/
inductive FixedString where
  /-- The text `NaN`. -/
  | nan
  /-- The text `Infinity` or `-Infinity`. -/
  | inf (neg : Bool)
  /-- A decimal with three fraction digits: `n / 1000`, with a minus sign if `neg`. -/
  | dec (neg : Bool) (n : Nat)
  /-- From `1e21` on `toFixed` prints the number as `String(x)` does, which reads back as `x`. -/
  | plain (v : Int)
  deriving DecidableEq, Repr

/-- The call `x.toFixed(3)`: the integer `n` with `n / 1000` closest to `|x|`, the larger `n` on a tie. -/
def toFixed3 : JSNum → FixedString
  | .nan => .nan
  | .posInf => .inf false
  | .negInf => .inf true
  | .fin v =>
    if (10 ^ 21) <<< 1074 ≤ v.natAbs then .plain v
    else .dec (decide (v < 0)) ((2000 * v.natAbs + (1 <<< 1074)) / (1 <<< 1075))

/-- The call `parseFloat` on a string printed by `toFixed(3)`. -/
def parseFloat : FixedString → JSNum
  | .nan => .nan
  | .inf neg => if neg then .negInf else .posInf
  | .dec neg n => JSNum.ofMagnitude neg (roundScaled (n <<< 1074) 1000)
  | .plain v => .fin v

/-! ## JavaScript values -/

/-- A JavaScript value as it appears in a JSON body or an object property. -/
inductive JSValue where
  | undefined
  | null
  | bool (b : Bool)
  | number (x : JSNum)
  | string (s : String)
  /-- An array or object, kept as its JSON text. -/
  | object (json : String)
  deriving DecidableEq, Repr

namespace JSValue

/-- Truthiness, as tested by `||`, `&&` and `if`. -/
def truthy : JSValue → Bool
  | undefined => false
  | null => false
  | bool b => b
  | number x => x.truthy
  | string s => decide (s ≠ "")
  | object _ => true

/-- The operator `a || b`. -/
def or (a b : JSValue) : JSValue := if a.truthy then a else b

end JSValue

/-! ## The prediction adapter (`server/src/utils/mlService.js`) -/

/-- The `patientData` object the create route hands to `getPrediction`. The six
vitals and the age are numbers; a missing one reads as `undefined`, which every
comparison treats as `NaN`. -/
structure PatientData where
  age : JSNum
  gender : JSValue
  heartRate : JSNum
  bloodPressureSystolic : JSNum
  bloodPressureDiastolic : JSNum
  oxygenSaturation : JSNum
  temperature : JSNum
  respiratoryRate : JSNum
  gcsScore : JSValue
  lactateLevel : JSValue
  location : JSValue
  notes : JSValue
  submittedBy : String
  deriving DecidableEq, Repr

/-- The `data` object of a prediction result. Its fields are whatever JavaScript
values were put there: the success branch copies them from the response body. -/
structure PredictionData where
  needsICU : JSValue
  riskScore : JSValue
  riskLevel : JSValue
  confidence : JSValue
  modelVersion : JSValue
  generatedSummary : JSValue
  deriving DecidableEq, Repr

/-- Lines 112-117 of `mlService.js`: the level `calculateFallbackPrediction`
derives from its (clamped, not yet rounded) score. -/
def fallbackRiskLevel (riskScore : JSNum) : String :=
  if riskScore.ge (JSNum.ofRatio 8 10) then "Critical"
  else if riskScore.ge (JSNum.ofRatio 6 10) then "High"
  else if riskScore.ge (JSNum.ofRatio 4 10) then "Medium"
  else "Low"

/-- The function `calculateFallbackPrediction`. The pair threaded through the six
rules is `(riskScore, riskFactors)`. -/
def calculateFallbackPrediction (patientData : PatientData) : PredictionData :=
  let s₀ : JSNum × Nat := (JSNum.ofRatio 0 1, 0)
  -- Heart rate analysis
  let s₁ := if patientData.heartRate.gt (JSNum.ofRatio 120 1)
      || patientData.heartRate.lt (JSNum.ofRatio 50 1)
    then (s₀.1.add (JSNum.ofRatio 2 10), s₀.2 + 1) else s₀
  -- Blood pressure analysis
  let s₂ := if patientData.bloodPressureSystolic.gt (JSNum.ofRatio 180 1)
      || patientData.bloodPressureSystolic.lt (JSNum.ofRatio 90 1)
    then (s₁.1.add (JSNum.ofRatio 2 10), s₁.2 + 1) else s₁
  -- Oxygen saturation analysis
  let s₃ := if patientData.oxygenSaturation.lt (JSNum.ofRatio 92 1)
    then (s₂.1.add (JSNum.ofRatio 25 100), s₂.2 + 1) else s₂
  -- Temperature analysis
  let s₄ := if patientData.temperature.gt (JSNum.ofRatio 39 1)
      || patientData.temperature.lt (JSNum.ofRatio 35 1)
    then (s₃.1.add (JSNum.ofRatio 15 100), s₃.2 + 1) else s₃
  -- Respiratory rate analysis
  let s₅ := if patientData.respiratoryRate.gt (JSNum.ofRatio 25 1)
      || patientData.respiratoryRate.lt (JSNum.ofRatio 10 1)
    then (s₄.1.add (JSNum.ofRatio 2 10), s₄.2 + 1) else s₄
  -- Age factor
  let s₆ := if patientData.age.gt (JSNum.ofRatio 70 1)
    then (s₅.1.add (JSNum.ofRatio 1 10), s₅.2) else s₅
  -- Normalize risk score
  let riskScore := JSNum.min s₆.1 (JSNum.ofRatio 1 1)
  let riskFactors := s₆.2
  let riskLevel := fallbackRiskLevel riskScore
  { needsICU := .bool (riskScore.ge (JSNum.ofRatio 5 10))
    riskScore := .number (parseFloat (toFixed3 riskScore))
    riskLevel := .string riskLevel
    confidence := .number (JSNum.ofRatio 6 10)
    modelVersion := .string "fallback-v1.0"
    generatedSummary := .string ("Fallback prediction: " ++ toString riskFactors
      ++ " risk factors identified. ML service unavailable.") }

/-- The request body posted to `/predict` (lines 24-35). -/
structure Payload where
  age : JSNum
  gender : JSValue
  heart_rate : JSNum
  systolic_blood_pressure : JSNum
  diastolic_blood_pressure : JSNum
  oxygen_saturation : JSNum
  temperature : JSNum
  respiratory_rate : JSNum
  gcs_score : JSValue
  lactate_level : JSValue
  deriving DecidableEq, Repr

/-- The payload `getPrediction` builds from `patientData`. -/
def buildPayload (patientData : PatientData) : Payload :=
  { age := patientData.age
    gender := patientData.gender
    heart_rate := patientData.heartRate
    systolic_blood_pressure := patientData.bloodPressureSystolic
    diastolic_blood_pressure := patientData.bloodPressureDiastolic
    oxygen_saturation := patientData.oxygenSaturation
    temperature := patientData.temperature
    respiratory_rate := patientData.respiratoryRate
    gcs_score := patientData.gcsScore.or (.number (JSNum.ofRatio 14 1))
    lactate_level := patientData.lactateLevel.or (.number (JSNum.ofRatio 2 1)) }

/-- The six properties `getPrediction` reads from `response.data`; a property the
body lacks reads as `undefined`. -/
structure ResponseBody where
  needs_icu : JSValue
  risk_score : JSValue
  risk_level : JSValue
  confidence : JSValue
  model_version : JSValue
  summary : JSValue
  deriving DecidableEq, Repr

/-- A resolved axios response. `data` is `none` when the body is `null` or
`undefined`, in which case reading a property of it throws a `TypeError`. -/
structure Response where
  data : Option ResponseBody
  deriving DecidableEq, Repr

/-- The scoring dependency as `getPrediction` sees it: `mlServiceClient.post`
either resolves with a response or rejects with an error carrying a message
(timeout, network error, non-2xx status). -/
abbrev ScoringService := Payload → Except String Response

/-- The object `getPrediction` resolves with. -/
structure PredictionResult where
  success : Bool
  error : Option String
  data : PredictionData
  deriving DecidableEq, Repr

/-- Message of the `TypeError` thrown by `response.data.needs_icu` on a null body. -/
def nullBodyMessage : String := "Cannot read properties of null (reading 'needs_icu')"

/-- The `try` block of `getPrediction` (lines 24-53); `.error` is a thrown exception. -/
def getPredictionTry (post : ScoringService) (patientData : PatientData) :
    Except String PredictionResult :=
  match post (buildPayload patientData) with
  | .error message => .error message
  | .ok response =>
    match response.data with
    | none => .error nullBodyMessage
    | some data =>
      .ok { success := true
            error := none
            data :=
              { needsICU := data.needs_icu
                riskScore := data.risk_score
                riskLevel := data.risk_level
                confidence := data.confidence
                modelVersion := data.model_version.or (.string "v1.0")
                generatedSummary := data.summary.or .null } }

/-- The function `getPrediction`: the `try` block, and the `catch` block that turns
any exception into a fallback result. `.error` would be a rejected promise. -/
def getPrediction (post : ScoringService) (patientData : PatientData) :
    Except String PredictionResult :=
  match getPredictionTry post patientData with
  | .ok result => .ok result
  | .error message =>
    .ok { success := false
          error := some message
          data := calculateFallbackPrediction patientData }

/-- The function `getPrediction` on any argument: `none` is a `patientData` that is
`null` or `undefined`. Reading `patientData.age` then throws inside the `try`, the
`catch` block calls `calculateFallbackPrediction(patientData)`, which throws on
`patientData.heartRate`, and the promise is rejected. -/
def getPredictionOn (post : ScoringService) :
    Option PatientData → Except String PredictionResult
  | some patientData => getPrediction post patientData
  | none => .error "Cannot read properties of undefined (reading 'heartRate')"

/-! ## The patient document and its save hook (`server/src/models/Patient.js`) -/

/-- The nested `prediction` path of a patient document; `none` is `null`. -/
structure Prediction where
  needsICU : Option Bool
  riskScore : Option JSNum
  riskLevel : Option String
  confidence : Option JSNum
  modelVersion : Option String
  generatedSummary : Option String
  deriving DecidableEq, Repr

/-- A patient document; `id` is its `_id`. `prediction` is `none` when the object
carries no prediction. -/
structure Patient where
  id : String
  age : JSNum
  gender : String
  heartRate : JSNum
  bloodPressureSystolic : JSNum
  bloodPressureDiastolic : JSNum
  oxygenSaturation : JSNum
  temperature : JSNum
  respiratoryRate : JSNum
  gcsScore : JSNum
  lactateLevel : JSNum
  location : Option String
  notes : Option String
  prediction : Option Prediction
  status : String
  priority : JSNum
  submittedBy : String
  assignedDoctor : Option String
  deriving DecidableEq, Repr

/-- A stored prediction read back as a plain object, `null` for an empty path. -/
def Prediction.toData (p : Prediction) : PredictionData :=
  { needsICU := match p.needsICU with | some b => .bool b | none => .null
    riskScore := match p.riskScore with | some x => .number x | none => .null
    riskLevel := match p.riskLevel with | some s => .string s | none => .null
    confidence := match p.confidence with | some x => .number x | none => .null
    modelVersion := match p.modelVersion with | some s => .string s | none => .null
    generatedSummary := match p.generatedSummary with | some s => .string s | none => .null }

/-- The `pre('save')` middleware of the patient schema (lines 176-194). -/
def preSave (doc : Patient) : Patient :=
  match doc.prediction with
  | none => doc
  | some prediction =>
    match prediction.riskScore with
    | none => doc
    | some riskScore =>
      if riskScore.ge (JSNum.ofRatio 8 10) then
        { doc with priority := JSNum.ofRatio 1 1
                   prediction := some { prediction with riskLevel := some "Critical" } }
      else if riskScore.ge (JSNum.ofRatio 6 10) then
        { doc with priority := JSNum.ofRatio 2 1
                   prediction := some { prediction with riskLevel := some "High" } }
      else if riskScore.ge (JSNum.ofRatio 4 10) then
        { doc with priority := JSNum.ofRatio 3 1
                   prediction := some { prediction with riskLevel := some "Medium" } }
      else
        { doc with priority := JSNum.ofRatio 4 1
                   prediction := some { prediction with riskLevel := some "Low" } }

/-! ## Socket handlers and the emitter (`server/src/utils/socket.js`) -/

/-- The identity a client sends with `authenticate`. A field is `none` when absent. -/
structure UserData where
  name : Option String
  role : Option String
  deriving DecidableEq, Repr

/-- An entry of the `connectedClients` map. -/
structure Client where
  id : String
  connectedAt : Nat
  user : Option UserData
  rooms : List String
  deriving DecidableEq, Repr

/-- Server-side socket state: the `connectedClients` map (keys in insertion order)
and the room membership kept by socket.io, a set of `(room, socket id)` pairs.
`socket.join` adds a pair unless present, `socket.leave` removes it, and
`io.to(room).emit` reaches exactly the sockets paired with `room`. -/
structure SocketServer where
  connectedClients : List (String × Client)
  members : List (String × String)
  deriving DecidableEq, Repr

/-- The method `Map.prototype.get`. -/
def mapGet (m : List (String × Client)) (key : String) : Option Client :=
  match m with
  | [] => none
  | (k, v) :: rest => if k = key then some v else mapGet rest key

/-- The method `Map.prototype.set`: replace the value of an existing key, else append. -/
def mapSet (m : List (String × Client)) (key : String) (value : Client) :
    List (String × Client) :=
  match m with
  | [] => [(key, value)]
  | (k, v) :: rest => if k = key then (k, value) :: rest else (k, v) :: mapSet rest key value

/-- The call `socket.join(room)` for the socket `sid`. -/
def socketJoin (members : List (String × String)) (sid room : String) :
    List (String × String) :=
  if (room, sid) ∈ members then members else members ++ [(room, sid)]

/-- The state before any connection. -/
def SocketServer.init : SocketServer := { connectedClients := [], members := [] }

/-- The `connection` handler body up to the registration of the listeners. -/
def onConnection (st : SocketServer) (sid : String) (now : Nat) : SocketServer :=
  { st with connectedClients :=
      mapSet st.connectedClients sid { id := sid, connectedAt := now, user := none, rooms := [] } }

/-- Truthiness of `userData.role`: present and not the empty string. -/
def roleTruthy : Option String → Option String
  | some r => if r = "" then none else some r
  | none => none

/-- The `authenticate` listener of the socket `sid`. -/
def onAuthenticate (st : SocketServer) (sid : String) (userData : UserData) : SocketServer :=
  match mapGet st.connectedClients sid with
  | none => st
  | some client =>
    match roleTruthy userData.role with
    | some role =>
      { connectedClients := mapSet st.connectedClients sid
          { client with user := some userData, rooms := client.rooms ++ ["role:" ++ role] }
        members := socketJoin st.members sid ("role:" ++ role) }
    | none =>
      { st with connectedClients :=
          mapSet st.connectedClients sid { client with user := some userData } }

/-- The `subscribe:dashboard` listener of the socket `sid`. -/
def onSubscribeDashboard (st : SocketServer) (sid : String) : SocketServer :=
  { st with members := socketJoin st.members sid "dashboard" }

/-- The payload of an envelope. -/
inductive EnvelopeData where
  | patient (patient : Patient)
  | statusChange (patientId oldStatus newStatus : String) (patient : Patient)
  deriving DecidableEq, Repr

/-- The object pushed to subscribers; `message` is present on critical alerts only. -/
structure Envelope where
  type : String
  data : EnvelopeData
  message : Option String
  timestamp : String
  deriving DecidableEq, Repr

/-- One `io.to(room).emit(event, payload)` call. -/
structure Emission where
  room : String
  event : String
  payload : Envelope
  deriving DecidableEq, Repr

/-- The function `emitNewPatient`, as the list of its `emit` calls in order. `t₁` and
`t₂` are what `new Date().toISOString()` returns at the first and second envelope. -/
def emitNewPatient (t₁ t₂ : String) (patient : Patient) : List Emission :=
  let first : Emission :=
    { room := "dashboard", event := "patient:new"
      payload := { type := "NEW_PATIENT", data := .patient patient, message := none
                   timestamp := t₁ } }
  match patient.prediction with
  | none => [first]
  | some prediction =>
    if prediction.riskLevel = some "Critical" then
      [first,
       { room := "role:DOCTOR", event := "alert:critical"
         payload :=
           { type := "CRITICAL_PATIENT", data := .patient patient
             message := some ("⚠️ Critical patient incoming: "
               ++ (match prediction.riskLevel with | some l => l | none => "null") ++ " risk")
             timestamp := t₂ } }]
    else [first]

/-- What the socket `sid` receives from a list of `emit` calls: the `(event, payload)`
of every call whose room it is a member of. -/
def received (st : SocketServer) (emissions : List Emission) (sid : String) :
    List (String × Envelope) :=
  (emissions.filter (fun e => decide ((e.room, sid) ∈ st.members))).map
    (fun e => (e.event, e.payload))

/-- The call `socket.leave(room)` for the socket `sid`. -/
def socketLeave (members : List (String × String)) (sid room : String) :
    List (String × String) :=
  members.filter (fun m => decide (m ≠ (room, sid)))

/-- The method `Map.prototype.delete`. -/
def mapDelete (m : List (String × Client)) (key : String) : List (String × Client) :=
  m.filter (fun kv => decide (kv.1 ≠ key))

/-- The `join:room` listener of the socket `sid`. -/
def onJoinRoom (st : SocketServer) (sid roomName : String) : SocketServer :=
  match mapGet st.connectedClients sid with
  | some client =>
    { connectedClients := mapSet st.connectedClients sid
        { client with rooms := client.rooms ++ [roomName] }
      members := socketJoin st.members sid roomName }
  | none => { st with members := socketJoin st.members sid roomName }

/-- The `leave:room` listener of the socket `sid`. -/
def onLeaveRoom (st : SocketServer) (sid roomName : String) : SocketServer :=
  match mapGet st.connectedClients sid with
  | some client =>
    { connectedClients := mapSet st.connectedClients sid
        { client with rooms := client.rooms.filter (fun r => decide (r ≠ roomName)) }
      members := socketLeave st.members sid roomName }
  | none => { st with members := socketLeave st.members sid roomName }

/-- The `subscribe:patient` listener of the socket `sid`. -/
def onSubscribePatient (st : SocketServer) (sid patientId : String) : SocketServer :=
  { st with members := socketJoin st.members sid ("patient:" ++ patientId) }

/-- The `disconnect` listener of the socket `sid`. By the time it runs socket.io has
taken the socket out of every room. -/
def onDisconnect (st : SocketServer) (sid : String) : SocketServer :=
  { connectedClients := mapDelete st.connectedClients sid
    members := st.members.filter (fun m => decide (m.2 ≠ sid)) }

/-- A message the socket layer handles. -/
inductive SocketEvent where
  | connection (sid : String) (now : Nat)
  | authenticate (sid : String) (userData : UserData)
  | joinRoom (sid roomName : String)
  | leaveRoom (sid roomName : String)
  | subscribeDashboard (sid : String)
  | subscribePatient (sid patientId : String)
  | disconnect (sid : String)
  deriving DecidableEq, Repr

/-- Dispatch of one message to its listener. -/
def handleEvent (st : SocketServer) : SocketEvent → SocketServer
  | .connection sid now => onConnection st sid now
  | .authenticate sid userData => onAuthenticate st sid userData
  | .joinRoom sid roomName => onJoinRoom st sid roomName
  | .leaveRoom sid roomName => onLeaveRoom st sid roomName
  | .subscribeDashboard sid => onSubscribeDashboard st sid
  | .subscribePatient sid patientId => onSubscribePatient st sid patientId
  | .disconnect sid => onDisconnect st sid

/-- The state after a sequence of messages, handled in order. -/
def runEvents (st : SocketServer) (events : List SocketEvent) : SocketServer :=
  events.foldl handleEvent st

/-- The function `emitPatientUpdate`, as the list of its `emit` calls in order, with
the timestamps of the two envelopes. -/
def emitPatientUpdate (t₁ t₂ : String) (patient : Patient) : List Emission :=
  [ { room := "dashboard", event := "patient:updated"
      payload := { type := "PATIENT_UPDATED", data := .patient patient, message := none
                   timestamp := t₁ } },
    { room := "patient:" ++ patient.id, event := "patient:updated"
      payload := { type := "PATIENT_UPDATED", data := .patient patient, message := none
                   timestamp := t₂ } } ]

/-- The function `emitStatusChange`, as the list of its `emit` calls. -/
def emitStatusChange (t : String) (patient : Patient) (oldStatus : String) : List Emission :=
  [ { room := "dashboard", event := "patient:status"
      payload := { type := "STATUS_CHANGE"
                   data := .statusChange patient.id oldStatus patient.status patient
                   message := none
                   timestamp := t } } ]

/-! ## Route handlers (`server/src/routes/patients.js`) -/

/-- The parts of Mongoose the update handlers rely on, left open. `assign` is
`Object.assign(patient, updates)`, every update passing through the setter of its
schema path; it is `.error` when a value cannot be cast, which makes the `save()`
that follows reject. `valid` tells whether `save()` accepts a document. -/
structure DocumentLayer where
  assign : Patient → List (String × JSValue) → Except String Patient
  valid : Patient → Bool

/-- An exception leaving a route handler. -/
inductive HandlerError where
  /-- An `AppError` thrown by the handler itself. -/
  | appError (message : String) (statusCode : Nat)
  /-- A rejection of `patient.save()`. -/
  | saveError (message : String)
  deriving DecidableEq, Repr

/-- What a handler did: the `emit` calls it made, and the patient it responded with
or the exception it threw. -/
structure HandlerResult where
  emissions : List Emission
  response : Except HandlerError Patient

/-- The call `patient.save()`: validation first, then the `pre('save')` hook. -/
def save (layer : DocumentLayer) (doc : Patient) : Except HandlerError Patient :=
  if layer.valid doc then .ok (preSave doc) else .error (.saveError "Validation failed")

/-- The constant `allowedUpdates` of the update handler. -/
def allowedUpdates : List String :=
  ["status", "priority", "notes", "assignedDoctor", "location"]

/-- The `updates` object the update handler builds from `req.body`, an object
being the list of its keys with their values. -/
def buildUpdates (body : List (String × JSValue)) : List (String × JSValue) :=
  body.filter (fun kv => allowedUpdates.contains kv.1)

/-- The handler of `PUT /api/patients/:id`. `found` is what `Patient.findById`
returned, `io` whether `req.app.get('io')` is set, and `t₁ t₂ t₃` are the
timestamps of the envelopes. Populating the references is not modelled: documents
keep the ids. -/
def putPatient (layer : DocumentLayer) (found : Option Patient)
    (body : List (String × JSValue)) (io : Bool) (t₁ t₂ t₃ : String) : HandlerResult :=
  let updates := buildUpdates body
  match found with
  | none => { emissions := [], response := .error (.appError "Patient not found" 404) }
  | some patient =>
    let oldStatus := patient.status
    match layer.assign patient updates with
    | .error message => { emissions := [], response := .error (.saveError message) }
    | .ok assigned =>
      match save layer assigned with
      | .error e => { emissions := [], response := .error e }
      | .ok saved =>
        { emissions :=
            if io then
              emitPatientUpdate t₁ t₂ saved
                ++ (if oldStatus ≠ saved.status then emitStatusChange t₃ saved oldStatus else [])
            else []
          response := .ok saved }

/-- The assignee of the assign handler: `doctorId || (role === 'DOCTOR' ? userId : null)`.
The `doctorId` of the body is a string when given; `userId` is the ObjectId of the
authenticated user, always truthy. -/
def assigneeOf (doctorId : Option String) (userRole userId : String) : Option String :=
  match roleTruthy doctorId with
  | some id => some id
  | none => if userRole = "DOCTOR" then some userId else none

/-- Lines 304-307 of `patients.js`: what the assign handler changes on the patient.
The path `assignedDoctor` is an ObjectId: Mongoose reports an assignee that does
not cast to one when `save()` runs, so a document carrying such an assignee is
one that `valid` rejects (see `castsObjectIds`). -/
def applyAssignment (patient : Patient) (assigneeId : String) : Patient :=
  let assigned := { patient with assignedDoctor := some assigneeId }
  if assigned.status = "Incoming" then { assigned with status := "Triaged" } else assigned

/-- The handler of `PUT /api/patients/:id/assign`. -/
def assignDoctor (layer : DocumentLayer) (found : Option Patient) (doctorId : Option String)
    (userRole userId : String) (io : Bool) (t₁ t₂ : String) : HandlerResult :=
  match found with
  | none => { emissions := [], response := .error (.appError "Patient not found" 404) }
  | some patient =>
    match assigneeOf doctorId userRole userId with
    | none => { emissions := [], response := .error (.appError "Doctor ID is required" 400) }
    | some assigneeId =>
      match save layer (applyAssignment patient assigneeId) with
      | .error e => { emissions := [], response := .error e }
      | .ok saved =>
        { emissions := if io then emitPatientUpdate t₁ t₂ saved else []
          response := .ok saved }

/-- The function `getConnectedCount`: the size of the `connectedClients` map. -/
def getConnectedCount (st : SocketServer) : Nat := st.connectedClients.length

/-- The function `getConnectedClients`: for each entry its id, connection time,
name and role of the user, and recorded rooms. -/
def getConnectedClients (st : SocketServer) :
    List (String × Nat × Option (Option String × Option String) × List String) :=
  st.connectedClients.map (fun kv =>
    (kv.2.id, kv.2.connectedAt, kv.2.user.map (fun u => (u.name, u.role)), kv.2.rooms))

/-- How Mongoose casts a JavaScript value assigned to each of the five updatable
paths, left open; `none` is a cast failure. The inner `none` of `notes`,
`assignedDoctor` and `location` is `null`. -/
structure PathCasts where
  status : JSValue → Option String
  priority : JSValue → Option JSNum
  notes : JSValue → Option (Option String)
  assignedDoctor : JSValue → Option (Option String)
  location : JSValue → Option (Option String)

/-- One step of `Object.assign(patient, updates)`: the assignment `patient[key] = value`
on a document. A key outside the five paths does not occur in `updates`. -/
def setPath (casts : PathCasts) (doc : Patient) (key : String) (value : JSValue) :
    Except String Patient :=
  if key = "status" then
    match casts.status value with
    | some s => .ok { doc with status := s }
    | none => .error "Cast failed for path status"
  else if key = "priority" then
    match casts.priority value with
    | some p => .ok { doc with priority := p }
    | none => .error "Cast failed for path priority"
  else if key = "notes" then
    match casts.notes value with
    | some n => .ok { doc with notes := n }
    | none => .error "Cast failed for path notes"
  else if key = "assignedDoctor" then
    match casts.assignedDoctor value with
    | some d => .ok { doc with assignedDoctor := d }
    | none => .error "Cast failed for path assignedDoctor"
  else if key = "location" then
    match casts.location value with
    | some l => .ok { doc with location := l }
    | none => .error "Cast failed for path location"
  else .ok doc

/-- The call `Object.assign(patient, updates)`: the keys of `updates` assigned in order. -/
def assignPaths (casts : PathCasts) (doc : Patient) :
    List (String × JSValue) → Except String Patient
  | [] => .ok doc
  | (key, value) :: rest =>
    match setPath casts doc key value with
    | .ok next => assignPaths casts next rest
    | .error message => .error message

/-- The document layer in which `Object.assign` assigns path by path. -/
def pathLayer (casts : PathCasts) (valid : Patient → Bool) : DocumentLayer :=
  { assign := assignPaths casts, valid := valid }

/-- The `patientData` object the create handler builds from `req.body` (lines 42-56);
`body` holds the fields read from the request. -/
def buildPatientData (body : PatientData) (userId : String) : PatientData :=
  { age := body.age
    gender := body.gender
    heartRate := body.heartRate
    bloodPressureSystolic := body.bloodPressureSystolic
    bloodPressureDiastolic := body.bloodPressureDiastolic
    oxygenSaturation := body.oxygenSaturation
    temperature := body.temperature
    respiratoryRate := body.respiratoryRate
    gcsScore := body.gcsScore.or (.number (JSNum.ofRatio 14 1))
    lactateLevel := body.lactateLevel.or (.number (JSNum.ofRatio 2 1))
    location := body.location
    notes := body.notes
    submittedBy := userId }

/-- The JSON the create handler answers with. -/
structure CreateResponse where
  statusCode : Nat
  mlServiceStatus : String
  patient : Patient
  deriving DecidableEq, Repr

/-- What the create handler did: the `emit` calls it made, and its answer or the
message of the exception it threw. -/
structure CreateResult where
  emissions : List Emission
  response : Except String CreateResponse

/-- The handler of `POST /api/patients`. `construct` is Mongoose building the document
from `patientData` with its `prediction` (casting, defaults, a fresh id), left
open; `.error` is a cast failure, which makes `Patient.create` reject. -/
def postPatient (layer : DocumentLayer)
    (construct : PatientData → PredictionData → Except String Patient)
    (post : ScoringService) (body : PatientData) (userId : String) (io : Bool)
    (t₁ t₂ : String) : CreateResult :=
  let patientData := buildPatientData body userId
  match getPrediction post patientData with
  | .error message => { emissions := [], response := .error message }
  | .ok predictionResult =>
    match construct patientData predictionResult.data with
    | .error message => { emissions := [], response := .error message }
    | .ok doc =>
      match save layer doc with
      | .error _ => { emissions := [], response := .error "Validation failed" }
      | .ok patient =>
        { emissions := if io then emitNewPatient t₁ t₂ patient else []
          response := .ok
            { statusCode := 201
              mlServiceStatus := if predictionResult.success then "connected" else "fallback"
              patient := patient } }

/-! ## Specification-side definitions and scenarios -/

/-- The indicator `[c]` of the specification: 1 when the condition holds, 0 otherwise. -/
def indicator (c : Bool) : Nat := if c then 1 else 0

/-- The standard bucketing of section 3 of the specification, in its words:
`>= 0.8` Critical, `>= 0.6` High, `>= 0.4` Medium, else Low. The comparisons are
JavaScript comparisons against the literals `0.8`, `0.6` and `0.4`. -/
def specRiskLevel (riskScore : JSNum) : String :=
  if riskScore.ge (JSNum.ofRatio 8 10) then "Critical"
  else if riskScore.ge (JSNum.ofRatio 6 10) then "High"
  else if riskScore.ge (JSNum.ofRatio 4 10) then "Medium"
  else "Low"

/-- The vitals of the specification's demo scenario (the values `fillDemoData` puts
in the form), with the defaults the create route fills in for the optional fields. -/
def demoVitals : PatientData :=
  { age := JSNum.ofRatio 65 1
    gender := .string "Male"
    heartRate := JSNum.ofRatio 110 1
    bloodPressureSystolic := JSNum.ofRatio 160 1
    bloodPressureDiastolic := JSNum.ofRatio 95 1
    oxygenSaturation := JSNum.ofRatio 91 1
    temperature := JSNum.ofRatio 385 10
    respiratoryRate := JSNum.ofRatio 24 1
    gcsScore := .number (JSNum.ofRatio 14 1)
    lactateLevel := .number (JSNum.ofRatio 2 1)
    location := .undefined
    notes := .undefined
    submittedBy := "paramedic-1" }

/-- A scoring dependency that cannot be reached: every request is rejected. -/
def unreachableService : ScoringService := fun _ => .error "connect ECONNREFUSED"

/-- A response body with score 5 and level Low. -/
def offScaleBody : ResponseBody :=
  { needs_icu := .bool false
    risk_score := .number (JSNum.ofRatio 5 1)
    risk_level := .string "Low"
    confidence := .number (JSNum.ofRatio 9 10)
    model_version := .undefined
    summary := .undefined }

/-- A scoring dependency that answers every request with `offScaleBody`. -/
def offScaleService : ScoringService := fun _ => .ok { data := some offScaleBody }

/-- A response body as the wire contract of section 6 of the specification has it: the
four required fields `needs_icu`, `risk_score`, `risk_level` and `confidence`
are there with the type of their kind. Any other body is a malformed payload. -/
def wellFormedBody (body : ResponseBody) : Bool :=
  (match body.needs_icu with | .bool _ => true | _ => false)
    && (match body.risk_score with | .number _ => true | _ => false)
    && (match body.risk_level with | .string _ => true | _ => false)
    && (match body.confidence with | .number _ => true | _ => false)

/-- Whether the scoring call succeeded, in the words of the specification: the request
resolved with a well-formed response. A timeout, a network error (a rejected
request) and a malformed payload (no body, or a body that is not well formed) are
failures. -/
def callSucceeded : Except String Response → Bool
  | .ok response =>
    match response.data with
    | some body => wellFormedBody body
    | none => false
  | .error _ => false

/-- Whether the request resolved with a body that is not `null` or `undefined`, well
formed or not. -/
def resolvedWithBody : Except String Response → Bool
  | .ok response => response.data.isSome
  | .error _ => false

/-- A response body without any of the fields, as an empty object or a plain text is. -/
def fieldlessBody : ResponseBody :=
  { needs_icu := .undefined
    risk_score := .undefined
    risk_level := .undefined
    confidence := .undefined
    model_version := .undefined
    summary := .undefined }

/-- A scoring dependency that answers every request with `fieldlessBody`. -/
def fieldlessService : ScoringService := fun _ => .ok { data := some fieldlessBody }

/-- Whether `patient.prediction.riskLevel` is the string Critical. -/
def isCritical (patient : Patient) : Prop :=
  ∃ prediction, patient.prediction = some prediction ∧ prediction.riskLevel = some "Critical"

/-- The `(riskLevel, priority)` pair the specification attaches to a score:
(Critical, 1) from 0.8, (High, 2) from 0.6, (Medium, 3) from 0.4, else (Low, 4). -/
def specLevelAndPriority (riskScore : JSNum) : String × JSNum :=
  if riskScore.ge (JSNum.ofRatio 8 10) then ("Critical", JSNum.ofRatio 1 1)
  else if riskScore.ge (JSNum.ofRatio 6 10) then ("High", JSNum.ofRatio 2 1)
  else if riskScore.ge (JSNum.ofRatio 4 10) then ("Medium", JSNum.ofRatio 3 1)
  else ("Low", JSNum.ofRatio 4 1)

/-- A patient document built from the demo vitals, with the given prediction. -/
def demoPatient (prediction : Option Prediction) : Patient :=
  { id := "p1"
    age := JSNum.ofRatio 65 1
    gender := "Male"
    heartRate := JSNum.ofRatio 110 1
    bloodPressureSystolic := JSNum.ofRatio 160 1
    bloodPressureDiastolic := JSNum.ofRatio 95 1
    oxygenSaturation := JSNum.ofRatio 91 1
    temperature := JSNum.ofRatio 385 10
    respiratoryRate := JSNum.ofRatio 24 1
    gcsScore := JSNum.ofRatio 14 1
    lactateLevel := JSNum.ofRatio 2 1
    location := none
    notes := none
    prediction := prediction
    status := "Incoming"
    priority := JSNum.ofRatio 3 1
    submittedBy := "paramedic-1"
    assignedDoctor := none }

/-- A stored prediction with the given score and level. -/
def demoPrediction (riskScore : Option JSNum) (riskLevel : Option String) : Prediction :=
  { needsICU := some true
    riskScore := riskScore
    riskLevel := riskLevel
    confidence := some (JSNum.ofRatio 6 10)
    modelVersion := some "v1.0"
    generatedSummary := none }

/-- The identity of a doctor. -/
def doctorUser : UserData := { name := some "Dr. Rao", role := some "DOCTOR" }

/-- The identity of a paramedic. -/
def paramedicUser : UserData := { name := some "Sam", role := some "PARAMEDIC" }

/-- What the client store's `connect` makes the server run for a socket once it is
connected: `authenticate` with the user's identity, then `subscribe:dashboard`. -/
def clientConnect (st : SocketServer) (sid : String) (userData : UserData) : SocketServer :=
  onSubscribeDashboard (onAuthenticate st sid userData) sid

/-- The `patient:new` emission of `emitNewPatient`. -/
def newPatientEmission (t : String) (patient : Patient) : Emission :=
  { room := "dashboard", event := "patient:new"
    payload := { type := "NEW_PATIENT", data := .patient patient, message := none
                 timestamp := t } }

/-- The `alert:critical` emission of `emitNewPatient`. -/
def criticalEmission (t : String) (patient : Patient) : Emission :=
  { room := "role:DOCTOR", event := "alert:critical"
    payload := { type := "CRITICAL_PATIENT", data := .patient patient
                 message := some "⚠️ Critical patient incoming: Critical risk"
                 timestamp := t } }

/-- The state after two sockets connected and each sent `authenticate` only. -/
def authenticatedOnly : SocketServer :=
  onAuthenticate
    (onAuthenticate
      (onConnection (onConnection SocketServer.init "doctor-socket" 0) "paramedic-socket" 1)
      "doctor-socket" doctorUser)
    "paramedic-socket" paramedicUser

/-- A patient whose stored prediction is Critical. -/
def criticalPatient : Patient :=
  demoPatient (some (demoPrediction (some (JSNum.ofRatio 9 10)) (some "Critical")))

/-- Vitals with heart rate, systolic pressure and respiratory rate out of range. -/
def threeRuleVitals : PatientData :=
  { demoVitals with
      heartRate := JSNum.ofRatio 130 1
      bloodPressureSystolic := JSNum.ofRatio 190 1
      oxygenSaturation := JSNum.ofRatio 97 1
      respiratoryRate := JSNum.ofRatio 30 1 }

/-- The fallback result for `threeRuleVitals` as the patient document stores it. -/
def storedFallback : Prediction :=
  { needsICU := some true
    riskScore := some (JSNum.ofRatio 6 10)
    riskLevel := some "High"
    confidence := some (JSNum.ofRatio 6 10)
    modelVersion := some "fallback-v1.0"
    generatedSummary :=
      some "Fallback prediction: 3 risk factors identified. ML service unavailable." }

/-- The state after two sockets connected, before either sent anything. -/
def twoConnections : SocketServer :=
  onConnection (onConnection SocketServer.init "doctor-socket" 0) "paramedic-socket" 1

/-- A document layer that stores the `status` of the updates, when it is a string,
and accepts every document. -/
def statusOnlyLayer : DocumentLayer :=
  { assign := fun patient updates =>
      match updates.lookup "status" with
      | some (.string s) => .ok { patient with status := s }
      | _ => .ok patient
    valid := fun _ => true }

/-- Whether an emission is a call of `emitStatusChange`. -/
def isStatusChange (e : Emission) : Prop := e.event = "patient:status"

/-- The bookkeeping invariant of the registry: every room recorded in the `rooms`
list of a registered connection is a room the connection is a member of. -/
def roomsRecordedAreJoined (st : SocketServer) : Prop :=
  ∀ sid client, mapGet st.connectedClients sid = some client →
    ∀ r ∈ client.rooms, (r, sid) ∈ st.members

/-- A state the server can be in: the result of handling some sequence of messages
from the initial state. -/
def Reachable (st : SocketServer) : Prop :=
  ∃ events, st = runEvents SocketServer.init events

/-- An identity whose role is the empty string. -/
def emptyRoleUser : UserData := { name := some "Sam", role := some "" }

/-- A connection subscribed to the dashboard and to the room of patient `p1`. -/
def watchingBoth : SocketServer :=
  onSubscribePatient (onSubscribeDashboard twoConnections "doctor-socket") "doctor-socket" "p1"

/-- A response body whose `model_version` and `summary` are empty strings. -/
def emptyTextBody : ResponseBody :=
  { needs_icu := .bool true
    risk_score := .number (JSNum.ofRatio 9 10)
    risk_level := .string "Critical"
    confidence := .number (JSNum.ofRatio 9 10)
    model_version := .string ""
    summary := .string "" }

/-- A scoring dependency that answers every request with `emptyTextBody`. -/
def emptyTextService : ScoringService := fun _ => .ok { data := some emptyTextBody }

/-- The demo vitals with a lactate level of 0. -/
def zeroLactateVitals : PatientData :=
  { demoVitals with lactateLevel := .number (JSNum.ofRatio 0 1) }

/-- Vitals all within the normal ranges, age 40. -/
def normalVitals : PatientData :=
  { demoVitals with
      age := JSNum.ofRatio 40 1
      heartRate := JSNum.ofRatio 72 1
      bloodPressureSystolic := JSNum.ofRatio 120 1
      bloodPressureDiastolic := JSNum.ofRatio 80 1
      oxygenSaturation := JSNum.ofRatio 98 1
      temperature := JSNum.ofRatio 368 10
      respiratoryRate := JSNum.ofRatio 16 1 }

/-- The state in which the doctor's connection has authenticated. -/
def doctorAuthenticated : SocketServer :=
  onAuthenticate twoConnections "doctor-socket" doctorUser

/-- The distinct-keys property of a JavaScript `Map`. -/
def keysDistinct (st : SocketServer) : Prop :=
  (st.connectedClients.map Prod.fst).Nodup

/-- A prediction object read as the typed `prediction` path, when every field has the
type of its path or is `null` or missing; a missing `modelVersion` takes the
schema default. -/
def Prediction.ofData (d : PredictionData) : Option Prediction :=
  let needsICU : Option (Option Bool) :=
    match d.needsICU with
    | .bool b => some (some b) | .null => some none | .undefined => some none | _ => none
  let number : JSValue → Option (Option JSNum) := fun v =>
    match v with
    | .number x => some (some x) | .null => some none | .undefined => some none | _ => none
  let text : JSValue → Option (Option String) := fun v =>
    match v with
    | .string s => some (some s) | .null => some none | .undefined => some none | _ => none
  let modelVersion : Option (Option String) :=
    match d.modelVersion with
    | .string s => some (some s) | .null => some none | .undefined => some (some "v1.0")
    | _ => none
  match needsICU, number d.riskScore, text d.riskLevel, number d.confidence, modelVersion,
      text d.generatedSummary with
  | some a, some b, some c, some e, some f, some g =>
    some { needsICU := a, riskScore := b, riskLevel := c, confidence := e
           modelVersion := f, generatedSummary := g }
  | _, _, _, _, _, _ => none

/-- A stand-in for Mongoose building the document of the demo request: the demo
patient with the prediction read from the data. -/
def demoConstruct : PatientData → PredictionData → Except String Patient :=
  fun _ data =>
    match Prediction.ofData data with
    | some prediction => .ok (demoPatient (some prediction))
    | none => .error "Cast failed for path prediction"

/-- The fallback result for the demo vitals as the patient document stores it. -/
def storedDemoFallback : Prediction :=
  { needsICU := some false
    riskScore := some (JSNum.ofRatio 25 100)
    riskLevel := some "Low"
    confidence := some (JSNum.ofRatio 6 10)
    modelVersion := some "fallback-v1.0"
    generatedSummary :=
      some "Fallback prediction: 1 risk factors identified. ML service unavailable." }

/-- A response body with score 0.9 labelled Low. -/
def mislabelledBody : ResponseBody :=
  { needs_icu := .bool true
    risk_score := .number (JSNum.ofRatio 9 10)
    risk_level := .string "Low"
    confidence := .number (JSNum.ofRatio 9 10)
    model_version := .string "v2.1"
    summary := .string "Elevated risk" }

/-- A scoring dependency that answers every request with `mislabelledBody`. -/
def mislabelledService : ScoringService := fun _ => .ok { data := some mislabelledBody }

/-- Casts that store a value of the path's type as it is, `null` where the path allows
it, and fail on anything else. -/
def plainCasts : PathCasts :=
  { status := fun v => match v with | .string s => some s | _ => none
    priority := fun v => match v with | .number x => some x | _ => none
    notes := fun v => match v with | .string s => some (some s) | .null => some none | _ => none
    assignedDoctor := fun v =>
      match v with | .string s => some (some s) | .null => some none | _ => none
    location := fun v =>
      match v with | .string s => some (some s) | .null => some none | _ => none }

/-- Every field outside the five updatable paths is the same in `q` as in `p`:
putting the five paths of `p` back into `q` gives `p`. -/
def sameOutsideUpdatable (p q : Patient) : Prop :=
  { q with status := p.status, priority := p.priority, notes := p.notes
           assignedDoctor := p.assignedDoctor, location := p.location } = p

/-- A patient with a stored score of 0.85, as the hook saved it: Critical, priority 1. -/
def scoredPatient : Patient :=
  { demoPatient (some (demoPrediction (some (JSNum.ofRatio 85 100)) (some "Critical")))
      with priority := JSNum.ofRatio 1 1 }

/-- A hexadecimal digit. -/
def isHexDigit (c : Char) : Bool :=
  ('0' ≤ c && c ≤ '9') || ('a' ≤ c && c ≤ 'f') || ('A' ≤ c && c ≤ 'F')

/-- A string that may cast to an ObjectId: 24 hexadecimal digits (the format
`validateObjectId` checks for the id in the path, `validation.js`, line 146), or
12 characters, which older drivers read as the 12 bytes of the id. Every other
string fails the cast. -/
def objectIdString (s : String) : Bool :=
  (decide (s.data.length = 24) && s.data.all isHexDigit) || decide (s.data.length = 12)

/-- The behaviour of Mongoose on the ObjectId path `assignedDoctor`: `save()` accepts
no document whose assignedDoctor does not cast to an ObjectId. -/
def castsObjectIds (layer : DocumentLayer) : Prop :=
  ∀ doc id, layer.valid doc = true → doc.assignedDoctor = some id → objectIdString id = true

/-- A document layer whose `save()` checks the ObjectId path `assignedDoctor` and
nothing else. -/
def objectIdLayer : DocumentLayer :=
  { assign := assignPaths plainCasts
    valid := fun doc =>
      match doc.assignedDoctor with
      | some id => objectIdString id
      | none => true }

/-- The id of a doctor, an ObjectId. -/
def doctorObjectId : String := "64b7f0c2a1d3e4f5a6b7c8d9"

/-! ## The number model -/

/-- Invariant of the binary search: the highest set bit stays between `acc` and
`acc + 2^i`, so after the last round it is `acc`. -/
theorem bitLengthAux_bounds (i : Nat) : ∀ (n acc : Nat), 2 ^ acc ≤ n → n < 2 ^ (acc + 2 ^ i) →
    2 ^ bitLengthAux i n acc ≤ n ∧ n < 2 ^ (bitLengthAux i n acc + 1) := by
  induction i with
  | zero =>
    intro n acc hlo hhi
    exact ⟨hlo, by simpa using hhi⟩
  | succ i ih =>
    intro n acc hlo hhi
    unfold bitLengthAux
    by_cases hz : n >>> (acc + 2 ^ i) = 0
    · rw [if_pos hz]
      refine ih n acc hlo ?_
      rw [Nat.shiftRight_eq_div_pow] at hz
      exact (Nat.div_eq_zero_iff (Nat.pos_pow_of_pos _ (by decide))).mp hz
    · rw [if_neg hz]
      refine ih n (acc + 2 ^ i) ?_ ?_
      · rw [Nat.shiftRight_eq_div_pow] at hz
        by_contra hlt
        exact hz ((Nat.div_eq_zero_iff (Nat.pos_pow_of_pos _ (by decide))).mpr (not_le.mp hlt))
      · have e : acc + 2 ^ i + 2 ^ i = acc + 2 ^ (i + 1) := by rw [pow_succ]; omega
        rw [e]
        exact hhi

/-- The binary search computes the bit length: `2^(L-1) <= n < 2^L`. -/
theorem bitLength_bounds (n : Nat) (hpos : 0 < n) (hlt : n < 2 ^ 2 ^ 12) :
    2 ^ (bitLength n - 1) ≤ n ∧ n < 2 ^ bitLength n := by
  unfold bitLength
  rw [if_neg (by omega)]
  have h := bitLengthAux_bounds 12 n 0 (by simpa using hpos) (by rw [Nat.zero_add]; exact hlt)
  simpa using h

/-- The quotient `roundHalfEven` returns is within half a divisor of `n`. -/
theorem roundHalfEven_nearest (n d : Nat) (hd : 0 < d) :
    2 * (n - roundHalfEven n d * d) ≤ d ∧ 2 * (roundHalfEven n d * d - n) ≤ d := by
  have hdm := Nat.div_add_mod n d
  have hml := Nat.mod_lt n hd
  have hq : (n / d + 1) * d = d * (n / d) + d := by rw [Nat.add_mul, Nat.mul_comm]; simp
  have hq0 : n / d * d = d * (n / d) := Nat.mul_comm _ _
  unfold roundHalfEven
  simp only
  split
  · rw [hq0]; omega
  · split
    · rw [hq]; omega
    · split
      · rw [hq0]; omega
      · rw [hq]; omega

/-- The literal `0.1` is the binary64 value `0x1.999999999999ap-4`. -/
theorem ofRatio_one_tenth : JSNum.ofRatio 1 10 = .fin (0x1999999999999a <<< (1074 - 56) : Nat) := by
  decide

/-- In binary64 `0.2 + 0.2 + 0.2` is not the literal `0.6` (it prints as
0.6000000000000001), yet `toFixed(3)` followed by `parseFloat` lands on `0.6`. -/
theorem three_fifths_rounding :
    ((JSNum.ofRatio 2 10).add (JSNum.ofRatio 2 10)).add (JSNum.ofRatio 2 10)
        = JSNum.ofRatio 6000000000000001 10000000000000000
      ∧ ((JSNum.ofRatio 2 10).add (JSNum.ofRatio 2 10)).add (JSNum.ofRatio 2 10)
        ≠ JSNum.ofRatio 6 10
      ∧ parseFloat (toFixed3
          (((JSNum.ofRatio 2 10).add (JSNum.ofRatio 2 10)).add (JSNum.ofRatio 2 10)))
        = JSNum.ofRatio 6 10 := by
  decide

/-! ## Membership lemmas and claims -/

/-- C1. For every vitals record the `riskScore` of `calculateFallbackPrediction` is
the number `min(1, 0.20[hr] + 0.20[bp] + 0.25[spo2] + 0.15[temp] + 0.20[resp] + 0.10[age])`,
the sum being counted in thousandths. -/
theorem fallback_riskScore_formula (pd : PatientData) :
    (calculateFallbackPrediction pd).riskScore =
      .number (JSNum.ofRatio
        (min 1000
          (200 * indicator (pd.heartRate.gt (JSNum.ofRatio 120 1)
              || pd.heartRate.lt (JSNum.ofRatio 50 1))
           + 200 * indicator (pd.bloodPressureSystolic.gt (JSNum.ofRatio 180 1)
              || pd.bloodPressureSystolic.lt (JSNum.ofRatio 90 1))
           + 250 * indicator (pd.oxygenSaturation.lt (JSNum.ofRatio 92 1))
           + 150 * indicator (pd.temperature.gt (JSNum.ofRatio 39 1)
              || pd.temperature.lt (JSNum.ofRatio 35 1))
           + 200 * indicator (pd.respiratoryRate.gt (JSNum.ofRatio 25 1)
              || pd.respiratoryRate.lt (JSNum.ofRatio 10 1))
           + 100 * indicator (pd.age.gt (JSNum.ofRatio 70 1)))) 1000) := by
  unfold calculateFallbackPrediction
  generalize (pd.heartRate.gt (JSNum.ofRatio 120 1)
    || pd.heartRate.lt (JSNum.ofRatio 50 1)) = b₁
  generalize (pd.bloodPressureSystolic.gt (JSNum.ofRatio 180 1)
    || pd.bloodPressureSystolic.lt (JSNum.ofRatio 90 1)) = b₂
  generalize pd.oxygenSaturation.lt (JSNum.ofRatio 92 1) = b₃
  generalize (pd.temperature.gt (JSNum.ofRatio 39 1)
    || pd.temperature.lt (JSNum.ofRatio 35 1)) = b₄
  generalize (pd.respiratoryRate.gt (JSNum.ofRatio 25 1)
    || pd.respiratoryRate.lt (JSNum.ofRatio 10 1)) = b₅
  generalize pd.age.gt (JSNum.ofRatio 70 1) = b₆
  revert b₁ b₂ b₃ b₄ b₅ b₆
  decide

/-- C2, as the specification states it, fails: with the scoring dependency
unreachable the demo vitals do not give riskScore 1.0, riskLevel Critical and
needsICU true. -/
theorem demo_fallback_not_critical :
    ¬ ∃ r, getPrediction unreachableService demoVitals = .ok r
      ∧ r.data.riskScore = .number (JSNum.ofRatio 1 1)
      ∧ r.data.riskLevel = .string "Critical"
      ∧ r.data.needsICU = .bool true := by
  rintro ⟨r, h, hs, -⟩
  have hr : getPrediction unreachableService demoVitals
      = .ok ⟨false, some "connect ECONNREFUSED", calculateFallbackPrediction demoVitals⟩ := rfl
  rw [hr] at h
  cases h
  revert hs
  decide

/-- C2, amended. For the vitals age 65, heart rate 110, pressure 160/95, SpO2 91,
temperature 38.5, respiratory rate 24 (whatever the other fields) and a rejected
scoring call, `getPrediction` returns the fallback with riskScore 0.25 (only the
oxygen rule fires), riskLevel Low and needsICU false. -/
theorem demo_fallback_is_low (gender gcsScore lactateLevel location notes : JSValue)
    (submittedBy message : String) :
    ∃ r, getPrediction (fun _ => .error message)
          { demoVitals with gender := gender, gcsScore := gcsScore
                            lactateLevel := lactateLevel, location := location
                            notes := notes, submittedBy := submittedBy } = .ok r
      ∧ r.success = false
      ∧ r.data.riskScore = .number (JSNum.ofRatio 25 100)
      ∧ r.data.riskLevel = .string "Low"
      ∧ r.data.needsICU = .bool false := by
  exact ⟨_, rfl, rfl, rfl, rfl, rfl⟩

/-- C3, as the specification states it, fails: a scoring dependency that answers with
risk_score 5 and risk_level Low makes `getPrediction` return exactly that, a
score outside [0, 1]. -/
theorem getPrediction_score_unbounded :
    ¬ ∃ r x, getPrediction offScaleService demoVitals = .ok r
      ∧ r.data.riskScore = .number x
      ∧ x.ge (JSNum.ofRatio 0 1) = true ∧ x.le (JSNum.ofRatio 1 1) = true
      ∧ r.data.riskLevel = .string (specRiskLevel x) := by
  rintro ⟨r, x, h, hs, -, hle, -⟩
  have hr : r.data.riskScore = .number (JSNum.ofRatio 5 1) := by
    cases h
    rfl
  rw [hr] at hs
  cases hs
  revert hle
  decide

/-- C3, amended. For every vitals record and every outcome of the scoring call,
`getPrediction` returns a result that is either a fallback (success false) whose
riskScore lies in [0, 1] and whose riskLevel is the standard bucketing of that
riskScore, or a success whose riskScore and riskLevel are the response's
`risk_score` and `risk_level` unchanged. -/
theorem getPrediction_score_and_level (post : ScoringService) (pd : PatientData) :
    ∃ r, getPrediction post pd = .ok r
      ∧ ((r.success = false
            ∧ ∃ x, r.data.riskScore = .number x
              ∧ x.ge (JSNum.ofRatio 0 1) = true ∧ x.le (JSNum.ofRatio 1 1) = true
              ∧ r.data.riskLevel = .string (specRiskLevel x))
        ∨ (r.success = true
            ∧ ∃ body, post (buildPayload pd) = .ok { data := some body }
              ∧ r.data.riskScore = body.risk_score
              ∧ r.data.riskLevel = body.risk_level)) := by
  have hfb : ∃ x, (calculateFallbackPrediction pd).riskScore = .number x
      ∧ x.ge (JSNum.ofRatio 0 1) = true ∧ x.le (JSNum.ofRatio 1 1) = true
      ∧ (calculateFallbackPrediction pd).riskLevel = .string (specRiskLevel x) := by
    refine ⟨_, rfl, ?_⟩
    unfold calculateFallbackPrediction
    generalize (pd.heartRate.gt (JSNum.ofRatio 120 1)
      || pd.heartRate.lt (JSNum.ofRatio 50 1)) = b₁
    generalize (pd.bloodPressureSystolic.gt (JSNum.ofRatio 180 1)
      || pd.bloodPressureSystolic.lt (JSNum.ofRatio 90 1)) = b₂
    generalize pd.oxygenSaturation.lt (JSNum.ofRatio 92 1) = b₃
    generalize (pd.temperature.gt (JSNum.ofRatio 39 1)
      || pd.temperature.lt (JSNum.ofRatio 35 1)) = b₄
    generalize (pd.respiratoryRate.gt (JSNum.ofRatio 25 1)
      || pd.respiratoryRate.lt (JSNum.ofRatio 10 1)) = b₅
    generalize pd.age.gt (JSNum.ofRatio 70 1) = b₆
    revert b₁ b₂ b₃ b₄ b₅ b₆
    decide
  unfold getPrediction getPredictionTry
  cases hpost : post (buildPayload pd) with
  | error message => exact ⟨_, rfl, Or.inl ⟨rfl, hfb⟩⟩
  | ok response =>
    obtain ⟨data⟩ := response
    cases data with
    | none => exact ⟨_, rfl, Or.inl ⟨rfl, hfb⟩⟩
    | some body => exact ⟨_, rfl, Or.inr ⟨rfl, body, rfl, rfl, rfl⟩⟩

/-- C4. For every vitals record the riskScore `calculateFallbackPrediction` returns
lies in [0, 1] and the riskLevel it returns is the standard bucketing of that
returned riskScore: Critical iff `>= 0.8`, High iff `>= 0.6` and `< 0.8`, Medium
iff `>= 0.4` and `< 0.6`, Low iff `< 0.4`. -/
theorem fallback_level_buckets_returned_score (pd : PatientData) :
    ∃ x l, (calculateFallbackPrediction pd).riskScore = .number x
      ∧ (calculateFallbackPrediction pd).riskLevel = .string l
      ∧ x.ge (JSNum.ofRatio 0 1) = true ∧ x.le (JSNum.ofRatio 1 1) = true
      ∧ (l = "Critical" ↔ x.ge (JSNum.ofRatio 8 10) = true)
      ∧ (l = "High" ↔ x.ge (JSNum.ofRatio 6 10) = true ∧ x.lt (JSNum.ofRatio 8 10) = true)
      ∧ (l = "Medium" ↔ x.ge (JSNum.ofRatio 4 10) = true ∧ x.lt (JSNum.ofRatio 6 10) = true)
      ∧ (l = "Low" ↔ x.lt (JSNum.ofRatio 4 10) = true) := by
  refine ⟨_, _, rfl, rfl, ?_⟩
  generalize (pd.heartRate.gt (JSNum.ofRatio 120 1)
    || pd.heartRate.lt (JSNum.ofRatio 50 1)) = b₁
  generalize (pd.bloodPressureSystolic.gt (JSNum.ofRatio 180 1)
    || pd.bloodPressureSystolic.lt (JSNum.ofRatio 90 1)) = b₂
  generalize pd.oxygenSaturation.lt (JSNum.ofRatio 92 1) = b₃
  generalize (pd.temperature.gt (JSNum.ofRatio 39 1)
    || pd.temperature.lt (JSNum.ofRatio 35 1)) = b₄
  generalize (pd.respiratoryRate.gt (JSNum.ofRatio 25 1)
    || pd.respiratoryRate.lt (JSNum.ofRatio 10 1)) = b₅
  generalize pd.age.gt (JSNum.ofRatio 70 1) = b₆
  revert b₁ b₂ b₃ b₄ b₅ b₆
  decide

/-- C5. For every vitals record the result of `calculateFallbackPrediction` has
`needsICU == (riskScore >= 0.5)` for the riskScore the result carries. -/
theorem fallback_needsICU_iff_returned_score (pd : PatientData) :
    ∃ x, (calculateFallbackPrediction pd).riskScore = .number x
      ∧ (calculateFallbackPrediction pd).needsICU = .bool (x.ge (JSNum.ofRatio 5 10)) := by
  refine ⟨_, rfl, ?_⟩
  unfold calculateFallbackPrediction
  generalize (pd.heartRate.gt (JSNum.ofRatio 120 1)
    || pd.heartRate.lt (JSNum.ofRatio 50 1)) = b₁
  generalize (pd.bloodPressureSystolic.gt (JSNum.ofRatio 180 1)
    || pd.bloodPressureSystolic.lt (JSNum.ofRatio 90 1)) = b₂
  generalize pd.oxygenSaturation.lt (JSNum.ofRatio 92 1) = b₃
  generalize (pd.temperature.gt (JSNum.ofRatio 39 1)
    || pd.temperature.lt (JSNum.ofRatio 35 1)) = b₄
  generalize (pd.respiratoryRate.gt (JSNum.ofRatio 25 1)
    || pd.respiratoryRate.lt (JSNum.ofRatio 10 1)) = b₅
  generalize pd.age.gt (JSNum.ofRatio 70 1) = b₆
  revert b₁ b₂ b₃ b₄ b₅ b₆
  decide

/-- C6, as the specification states it, fails: a response whose body has none of the
fields is a malformed payload, so the call did not succeed, yet `getPrediction`
returns it with the success flag true and with data made of `undefined`
fields, not the fallback. -/
theorem malformed_body_counts_as_success :
    ¬ ∃ r, getPrediction fieldlessService demoVitals = .ok r
      ∧ (r.success = true ↔ callSucceeded (fieldlessService (buildPayload demoVitals)) = true)
      ∧ (r.success = false → r.data = calculateFallbackPrediction demoVitals) := by
  rintro ⟨r, h, hflag, -⟩
  have hr : r.success = true := by
    cases h
    rfl
  exact absurd (hflag.mp hr) (by decide)

/-- What `getPrediction` returns for the field-less body: success, with every field
but the two defaulted ones `undefined`. -/
theorem getPrediction_fieldless :
    getPrediction fieldlessService demoVitals = .ok
      { success := true
        error := none
        data :=
          { needsICU := .undefined
            riskScore := .undefined
            riskLevel := .undefined
            confidence := .undefined
            modelVersion := .string "v1.0"
            generatedSummary := .null } } :=
  rfl

/-- A `patientData` that is `null` or `undefined` makes `getPrediction` reject. -/
theorem getPredictionOn_undefined_rejects (post : ScoringService) :
    ∃ message, getPredictionOn post none = .error message :=
  ⟨_, rfl⟩

/-- C6, amended. For every patientData object and every outcome of the scoring call,
`getPrediction` does not raise: it returns a result whose success flag is true
exactly when the request resolved with a body that is not null, well formed or
not; when the flag is false the data is `calculateFallbackPrediction(patientData)`;
and every call that succeeded in the sense of the specification has the flag
true. -/
theorem getPrediction_flag_and_fallback (post : ScoringService) (pd : PatientData) :
    ∃ r, getPredictionOn post (some pd) = .ok r
      ∧ (r.success = true ↔ resolvedWithBody (post (buildPayload pd)) = true)
      ∧ (r.success = false → r.data = calculateFallbackPrediction pd)
      ∧ (callSucceeded (post (buildPayload pd)) = true → r.success = true) := by
  show ∃ r, getPrediction post pd = .ok r
      ∧ (r.success = true ↔ resolvedWithBody (post (buildPayload pd)) = true)
      ∧ (r.success = false → r.data = calculateFallbackPrediction pd)
      ∧ (callSucceeded (post (buildPayload pd)) = true → r.success = true)
  unfold getPrediction getPredictionTry callSucceeded resolvedWithBody
  cases hpost : post (buildPayload pd) with
  | error message => exact ⟨_, rfl, by simp, fun _ => rfl, by simp⟩
  | ok response =>
    obtain ⟨data⟩ := response
    cases data with
    | none => exact ⟨_, rfl, by simp, fun _ => rfl, by simp⟩
    | some body => exact ⟨_, rfl, by simp, fun h => by simp at h, fun _ => rfl⟩

/-- C6 amended, at work: a response without a body is absorbed into the fallback. -/
theorem getPrediction_flag_and_fallback_witness :
    ∃ r, getPredictionOn (fun _ => .ok { data := none }) (some demoVitals) = .ok r
      ∧ r.success = false
      ∧ r.data = calculateFallbackPrediction demoVitals := by
  obtain ⟨r, hr, hflag, hdata, -⟩ :=
    getPrediction_flag_and_fallback (fun _ => .ok { data := none }) demoVitals
  have hs : r.success = false := by
    cases h : r.success with
    | false => rfl
    | true => exact absurd (hflag.mp h) (by decide)
  exact ⟨r, hr, hs, hdata hs⟩

/-- Membership after `socket.join`: what was there, plus the joined pair. -/
theorem mem_socketJoin (members : List (String × String)) (sid room : String)
    (x : String × String) :
    x ∈ socketJoin members sid room ↔ x ∈ members ∨ x = (room, sid) := by
  unfold socketJoin
  split
  · constructor
    · exact Or.inl
    · rintro (h | h)
      · exact h
      · subst h; assumption
  · simp

/-- Reading a map after a `set`. -/
theorem mapGet_mapSet (m : List (String × Client)) (key key2 : String) (value : Client) :
    mapGet (mapSet m key value) key2 = if key = key2 then some value else mapGet m key2 := by
  induction m with
  | nil => simp [mapSet, mapGet]
  | cons head rest ih =>
    obtain ⟨k, v⟩ := head
    by_cases hk : k = key
    · subst hk
      by_cases hk2 : k = key2 <;> simp [mapSet, mapGet, hk2]
    · by_cases hk2 : k = key2
      · subst hk2
        simp [mapSet, mapGet, hk, Ne.symm hk]
      · simp [mapSet, mapGet, hk, hk2, ih]

/-- For a registered socket and a usable role, `authenticate` joins the role topic. -/
theorem members_onAuthenticate (st : SocketServer) (sid : String) (userData : UserData)
    (role : String) (client : Client) (hc : mapGet st.connectedClients sid = some client)
    (hr : roleTruthy userData.role = some role) :
    (onAuthenticate st sid userData).members = socketJoin st.members sid ("role:" ++ role) := by
  simp [onAuthenticate, hc, hr]

/-- No `authenticate` removes a registry entry. -/
theorem registered_onAuthenticate (st : SocketServer) (sid sid2 : String) (userData : UserData)
    (h : (mapGet st.connectedClients sid2).isSome = true) :
    (mapGet (onAuthenticate st sid userData).connectedClients sid2).isSome = true := by
  unfold onAuthenticate
  cases hc : mapGet st.connectedClients sid with
  | none => simpa using h
  | some client =>
    cases hr : roleTruthy userData.role with
    | none =>
      simp only [mapGet_mapSet]
      split <;> simp [h]
    | some role =>
      simp only [mapGet_mapSet]
      split <;> simp [h]

/-- The two emissions made for a Critical patient. -/
theorem emitNewPatient_publishes_aux (t₁ t₂ : String) (patient : Patient)
    (h : isCritical patient) :
    emitNewPatient t₁ t₂ patient
      = [newPatientEmission t₁ patient, criticalEmission t₂ patient] := by
  obtain ⟨prediction, hp, hl⟩ := h
  simp [emitNewPatient, newPatientEmission, criticalEmission, hp, hl]

/-- C7. For every patient, `emitNewPatient` publishes exactly one envelope to topic
dashboard, the NEW_PATIENT envelope with event patient:new; it publishes to topic
role:DOCTOR if and only if the patient's riskLevel is Critical, and then what it
publishes there is the CRITICAL_PATIENT envelope with event alert:critical and a
message; otherwise the dashboard envelope is all it publishes. -/
theorem emitNewPatient_publishes (t₁ t₂ : String) (patient : Patient) :
    (emitNewPatient t₁ t₂ patient).filter (fun e => decide (e.room = "dashboard"))
        = [newPatientEmission t₁ patient]
      ∧ ((∃ e ∈ emitNewPatient t₁ t₂ patient, e.room = "role:DOCTOR") ↔ isCritical patient)
      ∧ (isCritical patient → emitNewPatient t₁ t₂ patient
          = [newPatientEmission t₁ patient, criticalEmission t₂ patient])
      ∧ (¬ isCritical patient → emitNewPatient t₁ t₂ patient
          = [newPatientEmission t₁ patient]) := by
  unfold isCritical emitNewPatient newPatientEmission criticalEmission
  cases hp : patient.prediction with
  | none => simp
  | some prediction =>
    by_cases hl : prediction.riskLevel = some "Critical"
    · simp [hl]
    · simp [hl]

/-- C7 at work: a Critical patient gives two emissions, a High one a single emission. -/
theorem emitNewPatient_publishes_witness :
    emitNewPatient "t1" "t2"
        (demoPatient (some (demoPrediction (some (JSNum.ofRatio 9 10)) (some "Critical"))))
      = [newPatientEmission "t1"
          (demoPatient (some (demoPrediction (some (JSNum.ofRatio 9 10)) (some "Critical")))),
         criticalEmission "t2"
          (demoPatient (some (demoPrediction (some (JSNum.ofRatio 9 10)) (some "Critical"))))]
    ∧ emitNewPatient "t1" "t2"
        (demoPatient (some (demoPrediction (some (JSNum.ofRatio 7 10)) (some "High"))))
      = [newPatientEmission "t1"
          (demoPatient (some (demoPrediction (some (JSNum.ofRatio 7 10)) (some "High"))))] :=
  ⟨(emitNewPatient_publishes "t1" "t2" _).2.2.1 ⟨_, rfl, rfl⟩,
   (emitNewPatient_publishes "t1" "t2" _).2.2.2 (by
      rintro ⟨prediction, hp, hl⟩
      cases hp
      exact absurd hl (by decide))⟩

/-- C8, as the specification states it, fails: after both connections have only
authenticated, a Critical patient reaches the doctor as an alert alone and the
paramedic not at all, since `authenticate` joins no connection to dashboard. -/
theorem authenticated_only_misses_new_patient :
    ¬ ((∃ env, ("patient:new", env)
          ∈ received authenticatedOnly (emitNewPatient "t1" "t2" criticalPatient) "doctor-socket")
      ∧ (∃ env, ("alert:critical", env)
          ∈ received authenticatedOnly (emitNewPatient "t1" "t2" criticalPatient) "doctor-socket")
      ∧ (∃ env, received authenticatedOnly (emitNewPatient "t1" "t2" criticalPatient)
          "paramedic-socket" = [("patient:new", env)])) := by
  rintro ⟨-, -, env, h⟩
  have hp : received authenticatedOnly (emitNewPatient "t1" "t2" criticalPatient)
      "paramedic-socket" = [] := by decide
  rw [hp] at h
  cases h

/-- C8, amended. Take two distinct registered connections, the second not a member of
role:DOCTOR. After the first has authenticated as DOCTOR and the second as
PARAMEDIC, each also subscribing to the dashboard as the client's `connect` does,
a Critical patient passed to `emitNewPatient` reaches the doctor's connection as a
patient:new and an alert:critical envelope and the paramedic's connection as a
patient:new envelope only. -/
theorem critical_patient_fanout (st : SocketServer) (d p : String)
    (nameD nameP : Option String) (t₁ t₂ : String) (patient : Patient)
    (hdp : d ≠ p)
    (hd : (mapGet st.connectedClients d).isSome = true)
    (hp : (mapGet st.connectedClients p).isSome = true)
    (hnot : ("role:DOCTOR", p) ∉ st.members)
    (hcrit : isCritical patient) :
    received
        (clientConnect (clientConnect st d { name := nameD, role := some "DOCTOR" })
          p { name := nameP, role := some "PARAMEDIC" })
        (emitNewPatient t₁ t₂ patient) d
      = [("patient:new", (newPatientEmission t₁ patient).payload),
         ("alert:critical", (criticalEmission t₂ patient).payload)]
    ∧ received
        (clientConnect (clientConnect st d { name := nameD, role := some "DOCTOR" })
          p { name := nameP, role := some "PARAMEDIC" })
        (emitNewPatient t₁ t₂ patient) p
      = [("patient:new", (newPatientEmission t₁ patient).payload)] := by
  obtain ⟨cd, hcd⟩ := Option.isSome_iff_exists.mp hd
  have hp1 := registered_onAuthenticate st d p { name := nameD, role := some "DOCTOR" } hp
  have hm1 := members_onAuthenticate st d { name := nameD, role := some "DOCTOR" } "DOCTOR" cd hcd rfl
  have hp2 : (mapGet (clientConnect st d { name := nameD, role := some "DOCTOR" }).connectedClients
      p).isSome = true := hp1
  obtain ⟨cp, hcp⟩ := Option.isSome_iff_exists.mp hp2
  have hm2 := members_onAuthenticate
    (clientConnect st d { name := nameD, role := some "DOCTOR" }) p
    { name := nameP, role := some "PARAMEDIC" } "PARAMEDIC" cp hcp rfl
  have hmem : ∀ x, x ∈ (clientConnect (clientConnect st d { name := nameD, role := some "DOCTOR" })
      p { name := nameP, role := some "PARAMEDIC" }).members ↔
      x ∈ st.members ∨ x = ("role:DOCTOR", d) ∨ x = ("dashboard", d)
        ∨ x = ("role:PARAMEDIC", p) ∨ x = ("dashboard", p) := by
    intro x
    show x ∈ socketJoin (onAuthenticate (clientConnect st d _) p _).members p "dashboard" ↔ _
    rw [mem_socketJoin, hm2, mem_socketJoin]
    show (x ∈ socketJoin (onAuthenticate st d _).members d "dashboard" ∨ _) ∨ _ ↔ _
    rw [mem_socketJoin, hm1, mem_socketJoin]
    simp only [or_assoc]
    rfl
  have hne : p ≠ d := fun h => hdp h.symm
  have e := (emitNewPatient_publishes_aux t₁ t₂ patient hcrit)
  rw [e]
  have h1 : ("dashboard", d) ∈ (clientConnect (clientConnect st d
      { name := nameD, role := some "DOCTOR" }) p { name := nameP, role := some "PARAMEDIC" }).members :=
    (hmem _).mpr (by simp)
  have h2 : ("role:DOCTOR", d) ∈ (clientConnect (clientConnect st d
      { name := nameD, role := some "DOCTOR" }) p { name := nameP, role := some "PARAMEDIC" }).members :=
    (hmem _).mpr (by simp)
  have h3 : ("dashboard", p) ∈ (clientConnect (clientConnect st d
      { name := nameD, role := some "DOCTOR" }) p { name := nameP, role := some "PARAMEDIC" }).members :=
    (hmem _).mpr (by simp)
  have h4 : ("role:DOCTOR", p) ∉ (clientConnect (clientConnect st d
      { name := nameD, role := some "DOCTOR" }) p { name := nameP, role := some "PARAMEDIC" }).members := by
    rw [hmem]
    simp [hnot, hne]
  simp [received, newPatientEmission, criticalEmission, h1, h2, h3, h4]

/-- C8 amended, at work on two fresh connections. -/
theorem critical_patient_fanout_witness :
    ("role:DOCTOR", "paramedic-socket") ∉ twoConnections.members
    ∧ received
        (clientConnect (clientConnect twoConnections "doctor-socket" doctorUser)
          "paramedic-socket" paramedicUser)
        (emitNewPatient "t1" "t2" criticalPatient) "doctor-socket"
      = [("patient:new", (newPatientEmission "t1" criticalPatient).payload),
         ("alert:critical", (criticalEmission "t2" criticalPatient).payload)]
    ∧ received
        (clientConnect (clientConnect twoConnections "doctor-socket" doctorUser)
          "paramedic-socket" paramedicUser)
        (emitNewPatient "t1" "t2" criticalPatient) "paramedic-socket"
      = [("patient:new", (newPatientEmission "t1" criticalPatient).payload)] :=
  ⟨by decide,
   critical_patient_fanout twoConnections "doctor-socket" "paramedic-socket"
     (some "Dr. Rao") (some "Sam") "t1" "t2" criticalPatient
     (by decide) (by decide) (by decide) (by decide) ⟨_, rfl, rfl⟩⟩

/-- C9. For every patient whose `prediction.riskScore` is not null, the pre-save hook
sets `prediction.riskLevel` and `priority` together from the score, (Critical, 1)
from 0.8, (High, 2) from 0.6, (Medium, 3) from 0.4, else (Low, 4), and changes
nothing else; when the riskScore is null, or there is no prediction, the hook
returns the document unchanged. -/
theorem preSave_rederives_level_and_priority (doc : Patient) :
    (∀ prediction riskScore, doc.prediction = some prediction →
        prediction.riskScore = some riskScore →
        preSave doc =
          { doc with
              priority := (specLevelAndPriority riskScore).2
              prediction := some
                { prediction with riskLevel := some (specLevelAndPriority riskScore).1 } })
    ∧ (∀ prediction, doc.prediction = some prediction → prediction.riskScore = none →
        preSave doc = doc)
    ∧ (doc.prediction = none → preSave doc = doc) := by
  refine ⟨?_, ?_, ?_⟩
  · intro prediction riskScore hp hs
    unfold preSave specLevelAndPriority
    simp only [hp, hs]
    split
    · rfl
    · split
      · rfl
      · split <;> rfl
  · intro prediction hp hs
    unfold preSave
    simp only [hp, hs]
  · intro hp
    unfold preSave
    simp only [hp]

/-- C9 at work: a stored score of 0.85 labelled Low at priority 3 is saved as
Critical at priority 1, and a null score leaves the document alone. -/
theorem preSave_rederives_level_and_priority_witness :
    preSave (demoPatient (some (demoPrediction (some (JSNum.ofRatio 85 100)) (some "Low"))))
      = { demoPatient (some (demoPrediction (some (JSNum.ofRatio 85 100)) (some "Critical")))
            with priority := JSNum.ofRatio 1 1 }
    ∧ preSave (demoPatient (some (demoPrediction none (some "High"))))
      = demoPatient (some (demoPrediction none (some "High"))) :=
  ⟨((preSave_rederives_level_and_priority _).1 _ _ rfl rfl).trans (by decide),
   (preSave_rederives_level_and_priority _).2.1 _ rfl rfl⟩

/-- The level the fallback reports is the level its own rule gives the score it
returns, although the rule ran before the score was rounded. -/
theorem fallback_level_of_returned_score (pd : PatientData) :
    ∃ x, (calculateFallbackPrediction pd).riskScore = .number x
      ∧ (calculateFallbackPrediction pd).riskLevel = .string (fallbackRiskLevel x) := by
  refine ⟨_, rfl, ?_⟩
  unfold calculateFallbackPrediction
  generalize (pd.heartRate.gt (JSNum.ofRatio 120 1)
    || pd.heartRate.lt (JSNum.ofRatio 50 1)) = b₁
  generalize (pd.bloodPressureSystolic.gt (JSNum.ofRatio 180 1)
    || pd.bloodPressureSystolic.lt (JSNum.ofRatio 90 1)) = b₂
  generalize pd.oxygenSaturation.lt (JSNum.ofRatio 92 1) = b₃
  generalize (pd.temperature.gt (JSNum.ofRatio 39 1)
    || pd.temperature.lt (JSNum.ofRatio 35 1)) = b₄
  generalize (pd.respiratoryRate.gt (JSNum.ofRatio 25 1)
    || pd.respiratoryRate.lt (JSNum.ofRatio 10 1)) = b₅
  generalize pd.age.gt (JSNum.ofRatio 70 1) = b₆
  revert b₁ b₂ b₃ b₄ b₅ b₆
  decide

/-- The level the hook stores is the fallback's rule applied to the stored score. -/
theorem preSave_level (doc : Patient) (prediction : Prediction) (riskScore : JSNum)
    (hp : doc.prediction = some prediction) (hs : prediction.riskScore = some riskScore) :
    (preSave doc).prediction.bind (fun q => q.riskLevel) = some (fallbackRiskLevel riskScore) := by
  unfold preSave fallbackRiskLevel
  simp only [hp, hs]
  split
  · rfl
  · split
    · rfl
    · split <;> rfl

/-- C10. The bucketing of `calculateFallbackPrediction` and that of the pre-save hook
are the same function of the score: on every riskScore the hook stores the level
the fallback's rule gives; and saving a patient whose stored prediction is a
fallback result leaves its riskLevel as the fallback set it. -/
theorem fallback_and_hook_bucket_alike :
    (∀ (doc : Patient) (prediction : Prediction) (riskScore : JSNum),
        doc.prediction = some prediction → prediction.riskScore = some riskScore →
        (preSave doc).prediction.bind (fun q => q.riskLevel)
          = some (fallbackRiskLevel riskScore))
    ∧ (∀ (pd : PatientData) (doc : Patient) (prediction : Prediction),
        doc.prediction = some prediction →
        prediction.toData = calculateFallbackPrediction pd →
        (preSave doc).prediction.bind (fun q => q.riskLevel) = prediction.riskLevel) := by
  refine ⟨preSave_level, ?_⟩
  intro pd doc prediction hp hdata
  obtain ⟨x, hx, hl⟩ := fallback_level_of_returned_score pd
  rw [← hdata] at hx hl
  have hs : prediction.riskScore = some x := by
    cases h : prediction.riskScore with
    | none => simp [Prediction.toData, h] at hx
    | some y => simpa [Prediction.toData, h] using hx
  have hlv : prediction.riskLevel = some (fallbackRiskLevel x) := by
    cases h : prediction.riskLevel with
    | none => simp [Prediction.toData, h] at hl
    | some y => simpa [Prediction.toData, h] using hl
  rw [preSave_level doc prediction x hp hs, hlv]

/-- C10 at work: heart rate, pressure and respiratory rate out of range sum to
0.6000000000000001 before rounding; the fallback returns 0.6 and High, and the
hook, bucketing the stored 0.6, keeps High. -/
theorem fallback_and_hook_bucket_alike_witness :
    storedFallback.toData = calculateFallbackPrediction threeRuleVitals
      ∧ (preSave (demoPatient (some storedFallback))).prediction.bind (fun q => q.riskLevel)
          = some "High" :=
  ⟨by decide, fallback_and_hook_bucket_alike.2 threeRuleVitals _ _ rfl (by decide)⟩

/-! ## Route handlers, registry bookkeeping and emitters -/

/-- The hook leaves the status and the assigned doctor alone. -/
theorem preSave_status (doc : Patient) :
    (preSave doc).status = doc.status ∧ (preSave doc).assignedDoctor = doc.assignedDoctor := by
  unfold preSave
  split
  · exact ⟨rfl, rfl⟩
  · split
    · exact ⟨rfl, rfl⟩
    · split
      · exact ⟨rfl, rfl⟩
      · split
        · exact ⟨rfl, rfl⟩
        · split <;> exact ⟨rfl, rfl⟩

/-- C11. In the update handler `emitStatusChange` is never invoked with an oldStatus
equal to the status of the patient it is given; no emission is made when the
handler throws; and, `io` being set as `index.js` sets it, a request that finds
patient `p` and answers with patient `q` invokes `emitStatusChange` if and only
if the status of `p` before the update differs from the status of `q`. -/
theorem putPatient_status_change_iff (layer : DocumentLayer) (found : Option Patient)
    (body : List (String × JSValue)) (io : Bool) (t₁ t₂ t₃ : String) :
    (∀ e ∈ (putPatient layer found body io t₁ t₂ t₃).emissions, isStatusChange e →
        ∃ patient oldStatus, e ∈ emitStatusChange t₃ patient oldStatus
          ∧ oldStatus ≠ patient.status)
    ∧ (∀ err, (putPatient layer found body io t₁ t₂ t₃).response = .error err →
        (putPatient layer found body io t₁ t₂ t₃).emissions = [])
    ∧ (∀ p q, io = true → found = some p →
        (putPatient layer found body io t₁ t₂ t₃).response = .ok q →
        ((∃ e ∈ (putPatient layer found body io t₁ t₂ t₃).emissions, isStatusChange e)
          ↔ p.status ≠ q.status)) := by
  unfold isStatusChange
  cases found with
  | none => simp [putPatient]
  | some patient =>
    cases hassign : layer.assign patient (buildUpdates body) with
    | error message => simp [putPatient, hassign]
    | ok assigned =>
      cases hsave : save layer assigned with
      | error e => simp [putPatient, hassign, hsave]
      | ok saved =>
        cases io with
        | false => simp [putPatient, hassign, hsave]
        | true =>
          by_cases hst : patient.status = saved.status
          · simp [putPatient, hassign, hsave, hst, emitPatientUpdate]
          · have hval : putPatient layer (some patient) body true t₁ t₂ t₃
                = { emissions := emitPatientUpdate t₁ t₂ saved
                      ++ emitStatusChange t₃ saved patient.status
                    response := .ok saved } := by
              simp [putPatient, hassign, hsave, hst]
            rw [hval]
            refine ⟨?_, ?_, ?_⟩
            · intro e he hev
              refine ⟨saved, patient.status, ?_, hst⟩
              rcases List.mem_append.mp he with he | he
              · simp [emitPatientUpdate] at he
                rcases he with he | he <;> (subst he; simp at hev)
              · exact he
            · intro err herr
              simp at herr
            · intro p q _ hp hq
              simp only [Option.some.injEq] at hp
              simp only [Except.ok.injEq] at hq
              subst hp
              subst hq
              refine ⟨fun _ => hst, fun _ => ⟨_, List.mem_append_right _ (List.mem_singleton_self _), rfl⟩⟩

/-- C11 at work: an update from Incoming to Triaged emits one status change, an
update that keeps the status emits none. -/
theorem putPatient_status_change_iff_witness :
    (∃ e ∈ (putPatient statusOnlyLayer (some (demoPatient none))
        [("status", .string "Triaged")] true "t1" "t2" "t3").emissions, isStatusChange e)
    ∧ ¬ (∃ e ∈ (putPatient statusOnlyLayer (some (demoPatient none))
        [("status", .string "Incoming")] true "t1" "t2" "t3").emissions, isStatusChange e) :=
  ⟨((putPatient_status_change_iff statusOnlyLayer (some (demoPatient none))
      [("status", .string "Triaged")] true "t1" "t2" "t3").2.2
        (demoPatient none) { demoPatient none with status := "Triaged" } rfl rfl rfl).mpr
      (by decide),
   fun h => ((putPatient_status_change_iff statusOnlyLayer (some (demoPatient none))
      [("status", .string "Incoming")] true "t1" "t2" "t3").2.2
        (demoPatient none) (demoPatient none) rfl rfl rfl).mp h rfl⟩

/-- C12, as the specification states it, fails: the assignee `doctor-7` is not empty,
yet it does not cast to an ObjectId, `save()` rejects, and the handler answers
with no patient at all, Triaged or otherwise, and emits nothing. -/
theorem assign_rejects_non_objectid :
    castsObjectIds objectIdLayer
      ∧ assigneeOf (some "doctor-7") "ADMIN" "admin-1" = some "doctor-7"
      ∧ (assignDoctor objectIdLayer (some (demoPatient none)) (some "doctor-7") "ADMIN"
          "admin-1" true "t1" "t2").emissions = []
      ∧ ¬ ∃ saved, (assignDoctor objectIdLayer (some (demoPatient none)) (some "doctor-7")
            "ADMIN" "admin-1" true "t1" "t2").response = .ok saved := by
  refine ⟨?_, rfl, rfl, ?_⟩
  · intro doc id hvalid hid
    simp only [objectIdLayer, hid] at hvalid
    exact hvalid
  · rintro ⟨saved, h⟩
    have hr : (assignDoctor objectIdLayer (some (demoPatient none)) (some "doctor-7") "ADMIN"
        "admin-1" true "t1" "t2").response = .error (.saveError "Validation failed") := rfl
    rw [hr] at h
    cases h

/-- C12, amended. In the assign handler, for every patient and every non-empty assignee:
when `save()` accepts the document, the handler answers with the patient whose
status is Triaged if it was Incoming and unchanged otherwise, and whose
assignedDoctor is the assignee; when `save()` rejects it, the handler throws,
answers with no patient and emits nothing; and `save()` rejects it whenever the
assignee does not cast to an ObjectId. -/
theorem assignDoctor_outcome (layer : DocumentLayer) (patient : Patient)
    (doctorId : Option String) (userRole userId assigneeId : String) (io : Bool)
    (t₁ t₂ : String) (hassignee : assigneeOf doctorId userRole userId = some assigneeId) :
    (layer.valid (applyAssignment patient assigneeId) = true →
        ∃ saved, (assignDoctor layer (some patient) doctorId userRole userId io t₁ t₂).response
            = .ok saved
          ∧ saved.status = (if patient.status = "Incoming" then "Triaged" else patient.status)
          ∧ saved.assignedDoctor = some assigneeId)
      ∧ (layer.valid (applyAssignment patient assigneeId) = false →
          (assignDoctor layer (some patient) doctorId userRole userId io t₁ t₂).response
              = .error (.saveError "Validation failed")
            ∧ (assignDoctor layer (some patient) doctorId userRole userId io t₁ t₂).emissions
              = [])
      ∧ (castsObjectIds layer → objectIdString assigneeId = false →
          layer.valid (applyAssignment patient assigneeId) = false) := by
  have h1 : (applyAssignment patient assigneeId).status
      = (if patient.status = "Incoming" then "Triaged" else patient.status) := by
    unfold applyAssignment
    by_cases h : patient.status = "Incoming" <;> simp [h]
  have h2 : (applyAssignment patient assigneeId).assignedDoctor = some assigneeId := by
    unfold applyAssignment
    by_cases h : patient.status = "Incoming" <;> simp [h]
  refine ⟨?_, ?_, ?_⟩
  · intro hvalid
    refine ⟨preSave (applyAssignment patient assigneeId), ?_, ?_, ?_⟩
    · simp [assignDoctor, hassignee, save, hvalid]
    · rw [(preSave_status _).1, h1]
    · rw [(preSave_status _).2, h2]
  · intro hinvalid
    constructor <;> simp [assignDoctor, hassignee, save, hinvalid]
  · intro hcast hbad
    cases hv : layer.valid (applyAssignment patient assigneeId) with
    | false => rfl
    | true =>
      have := hcast _ _ hv h2
      rw [hbad] at this
      cases this

/-- C12 amended, at work: an Incoming patient assigned to a doctor by ObjectId is
answered as Triaged. -/
theorem assignDoctor_outcome_witness :
    objectIdString doctorObjectId = true
      ∧ ∃ saved, (assignDoctor objectIdLayer (some (demoPatient none)) (some doctorObjectId)
          "ADMIN" "admin-1" true "t1" "t2").response = .ok saved
        ∧ saved.status = "Triaged" ∧ saved.assignedDoctor = some doctorObjectId :=
  ⟨by decide,
   (assignDoctor_outcome objectIdLayer (demoPatient none) (some doctorObjectId)
      "ADMIN" "admin-1" doctorObjectId true "t1" "t2" rfl).1 (by decide)⟩

/-- Membership after `socket.leave`: what was there, minus the left pair. -/
theorem mem_socketLeave (members : List (String × String)) (sid room : String)
    (x : String × String) :
    x ∈ socketLeave members sid room ↔ x ∈ members ∧ x ≠ (room, sid) := by
  simp [socketLeave]

/-- Joining a room twice is joining it once. -/
theorem socketJoin_idem (members : List (String × String)) (sid room : String) :
    socketJoin (socketJoin members sid room) sid room = socketJoin members sid room := by
  by_cases h : (room, sid) ∈ members <;> simp [socketJoin, h]

/-- Leaving a room one is not in changes nothing. -/
theorem socketLeave_of_not_mem (members : List (String × String)) (sid room : String)
    (h : (room, sid) ∉ members) : socketLeave members sid room = members := by
  unfold socketLeave
  rw [List.filter_eq_self]
  intro x hx
  simp only [decide_eq_true_eq]
  intro hxe
  exact h (hxe ▸ hx)

/-- Writing back the value a key already has leaves the map as it is. -/
theorem mapSet_self (m : List (String × Client)) (key : String) (value : Client)
    (h : mapGet m key = some value) : mapSet m key value = m := by
  induction m with
  | nil => simp [mapGet] at h
  | cons head rest ih =>
    obtain ⟨k, v⟩ := head
    by_cases hk : k = key
    · simp only [mapGet, hk, if_true, Option.some.injEq] at h
      simp [mapSet, hk, h]
    · simp only [mapGet, hk, if_false] at h
      simp [mapSet, hk, ih h]

/-- Reading a map after a `delete`. -/
theorem mapGet_mapDelete (m : List (String × Client)) (key key2 : String) :
    mapGet (mapDelete m key) key2 = if key = key2 then none else mapGet m key2 := by
  induction m with
  | nil => simp [mapDelete, mapGet]
  | cons head rest ih =>
    obtain ⟨k, v⟩ := head
    unfold mapDelete at ih ⊢
    by_cases hk : k = key
    · subst hk
      rw [List.filter_cons_of_neg (by simp), ih]
      by_cases hk2 : k = key2 <;> simp [mapGet, hk2]
    · rw [List.filter_cons_of_pos (by simpa using hk)]
      by_cases hk2 : k = key2
      · subst hk2
        simp [mapGet, Ne.symm hk]
      · simp only [mapGet, if_neg hk2, ih]

/-- Every listener preserves the bookkeeping invariant. -/
theorem roomsRecordedAreJoined_handleEvent (st : SocketServer) (ev : SocketEvent)
    (h : roomsRecordedAreJoined st) : roomsRecordedAreJoined (handleEvent st ev) := by
  intro sid2 c2 hget r hr
  cases ev with
  | connection sid now =>
    simp only [handleEvent, onConnection, mapGet_mapSet] at hget ⊢
    split at hget
    · simp only [Option.some.injEq] at hget
      subst hget
      simp at hr
    · exact h sid2 c2 hget r hr
  | authenticate sid userData =>
    simp only [handleEvent, onAuthenticate] at hget ⊢
    cases hc : mapGet st.connectedClients sid with
    | none =>
      simp only [hc] at hget ⊢
      exact h sid2 c2 hget r hr
    | some client =>
      cases hrole : roleTruthy userData.role with
      | none =>
        simp only [hc, hrole, mapGet_mapSet] at hget ⊢
        split at hget
        · rename_i hs
          simp only [Option.some.injEq] at hget
          subst hget
          subst hs
          exact h sid client hc r hr
        · exact h sid2 c2 hget r hr
      | some role =>
        simp only [hc, hrole, mapGet_mapSet] at hget ⊢
        rw [mem_socketJoin]
        split at hget
        · rename_i hs
          simp only [Option.some.injEq] at hget
          subst hget
          subst hs
          simp only [List.mem_append, List.mem_singleton] at hr
          rcases hr with hr | hr
          · exact Or.inl (h sid client hc r hr)
          · exact Or.inr (by rw [hr])
        · exact Or.inl (h sid2 c2 hget r hr)
  | joinRoom sid roomName =>
    simp only [handleEvent, onJoinRoom] at hget ⊢
    cases hc : mapGet st.connectedClients sid with
    | none =>
      simp only [hc] at hget ⊢
      rw [mem_socketJoin]
      exact Or.inl (h sid2 c2 hget r hr)
    | some client =>
      simp only [hc, mapGet_mapSet] at hget ⊢
      rw [mem_socketJoin]
      split at hget
      · rename_i hs
        simp only [Option.some.injEq] at hget
        subst hget
        subst hs
        simp only [List.mem_append, List.mem_singleton] at hr
        rcases hr with hr | hr
        · exact Or.inl (h sid client hc r hr)
        · exact Or.inr (by rw [hr])
      · exact Or.inl (h sid2 c2 hget r hr)
  | leaveRoom sid roomName =>
    simp only [handleEvent, onLeaveRoom] at hget ⊢
    cases hc : mapGet st.connectedClients sid with
    | none =>
      simp only [hc] at hget ⊢
      rw [mem_socketLeave]
      refine ⟨h sid2 c2 hget r hr, ?_⟩
      intro heq
      simp only [Prod.mk.injEq] at heq
      rw [heq.2, hc] at hget
      cases hget
    | some client =>
      simp only [hc, mapGet_mapSet] at hget ⊢
      rw [mem_socketLeave]
      split at hget
      · rename_i hs
        simp only [Option.some.injEq] at hget
        subst hget
        subst hs
        simp only [List.mem_filter, decide_eq_true_eq] at hr
        exact ⟨h sid client hc r hr.1, by simp [hr.2]⟩
      · rename_i hs
        exact ⟨h sid2 c2 hget r hr, by simp [Ne.symm hs]⟩
  | subscribeDashboard sid =>
    simp only [handleEvent, onSubscribeDashboard] at hget ⊢
    rw [mem_socketJoin]
    exact Or.inl (h sid2 c2 hget r hr)
  | subscribePatient sid patientId =>
    simp only [handleEvent, onSubscribePatient] at hget ⊢
    rw [mem_socketJoin]
    exact Or.inl (h sid2 c2 hget r hr)
  | disconnect sid =>
    simp only [handleEvent, onDisconnect, mapGet_mapDelete] at hget ⊢
    split at hget
    · cases hget
    · rename_i hs
      simp only [List.mem_filter, decide_eq_true_eq]
      exact ⟨h sid2 c2 hget r hr, Ne.symm hs⟩

/-- The bookkeeping invariant holds in every reachable state. -/
theorem roomsRecordedAreJoined_of_reachable (st : SocketServer) (h : Reachable st) :
    roomsRecordedAreJoined st := by
  obtain ⟨events, rfl⟩ := h
  have key : ∀ (evs : List SocketEvent) (s : SocketServer),
      roomsRecordedAreJoined s → roomsRecordedAreJoined (runEvents s evs) := by
    intro evs
    induction evs with
    | nil => intro s hs; exact hs
    | cons ev rest ih =>
      intro s hs
      exact ih _ (roomsRecordedAreJoined_handleEvent s ev hs)
  refine key events _ ?_
  intro sid client hget
  simp [SocketServer.init, mapGet] at hget

/-- The membership every `join:room` produces, registered or not. -/
theorem members_onJoinRoom (st : SocketServer) (sid room : String) :
    (onJoinRoom st sid room).members = socketJoin st.members sid room := by
  unfold onJoinRoom
  split <;> rfl

/-- The registry entry after `join:room`: the room appended to the recorded rooms. -/
theorem mapGet_onJoinRoom (st : SocketServer) (sid room : String) :
    mapGet (onJoinRoom st sid room).connectedClients sid
      = (mapGet st.connectedClients sid).map
          (fun client => { client with rooms := client.rooms ++ [room] }) := by
  unfold onJoinRoom
  cases hc : mapGet st.connectedClients sid with
  | none => simp [hc]
  | some client => simp [mapGet_mapSet]

/-- C13. For every connection and topic, handling `join:room` for the same topic twice
leaves the connection with the membership it has after handling it once, and
with the same set of recorded rooms; and in every reachable state, handling
`leave:room` for a topic the connection is not a member of (a topic without any
member included) returns the state unchanged. The handlers are total: nothing
is raised. -/
theorem join_twice_leave_nonmember (st : SocketServer) (sid room : String) :
    (onJoinRoom (onJoinRoom st sid room) sid room).members = (onJoinRoom st sid room).members
      ∧ (∀ r, (∃ c, mapGet (onJoinRoom (onJoinRoom st sid room) sid room).connectedClients sid
                  = some c ∧ r ∈ c.rooms)
            ↔ (∃ c, mapGet (onJoinRoom st sid room).connectedClients sid = some c
                  ∧ r ∈ c.rooms))
      ∧ (Reachable st → (room, sid) ∉ st.members → onLeaveRoom st sid room = st) := by
  refine ⟨?_, ?_, ?_⟩
  · rw [members_onJoinRoom, members_onJoinRoom, socketJoin_idem]
  · intro r
    rw [mapGet_onJoinRoom, mapGet_onJoinRoom]
    cases hc : mapGet st.connectedClients sid with
    | none => simp
    | some client => simp [or_assoc]
  · intro hreach hnot
    have hinv := roomsRecordedAreJoined_of_reachable st hreach
    unfold onLeaveRoom
    rw [socketLeave_of_not_mem st.members sid room hnot]
    cases hc : mapGet st.connectedClients sid with
    | none => rfl
    | some client =>
      have hrooms : client.rooms.filter (fun r => decide (r ≠ room)) = client.rooms := by
        rw [List.filter_eq_self]
        intro r hr
        simp only [decide_eq_true_eq]
        intro hre
        exact hnot (hre ▸ hinv sid client hc r hr)
      simp only [hrooms]
      rw [mapSet_self st.connectedClients sid client hc]

/-- C13 at work on the state with two fresh connections. -/
theorem join_twice_leave_nonmember_witness :
    Reachable twoConnections
      ∧ ("dashboard", "doctor-socket") ∉ twoConnections.members
      ∧ onLeaveRoom twoConnections "doctor-socket" "dashboard" = twoConnections :=
  have hreach : Reachable twoConnections :=
    ⟨[.connection "doctor-socket" 0, .connection "paramedic-socket" 1], rfl⟩
  ⟨hreach, by decide,
   (join_twice_leave_nonmember twoConnections "doctor-socket" "dashboard").2.2 hreach
     (by decide)⟩

/-- C14, as the specification states it, fails: an identity whose role is the empty
string attaches to a registered connection without joining it to any topic. -/
theorem authenticate_empty_role_joins_nothing :
    (mapGet twoConnections.connectedClients "doctor-socket").isSome = true
      ∧ ¬ ∃ topic, (topic, "doctor-socket")
          ∈ (onAuthenticate twoConnections "doctor-socket" emptyRoleUser).members := by
  refine ⟨by decide, ?_⟩
  rintro ⟨topic, h⟩
  have hm : (onAuthenticate twoConnections "doctor-socket" emptyRoleUser).members = [] := by
    decide
  rw [hm] at h
  cases h

/-- Handling `join:room` never removes a membership. -/
theorem mem_joins (joins : List (String × String)) :
    ∀ (st : SocketServer) (x : String × String), x ∈ st.members →
      x ∈ (joins.foldl (fun s j => onJoinRoom s j.1 j.2) st).members := by
  induction joins with
  | nil => intro st x hx; exact hx
  | cons j rest ih =>
    intro st x hx
    refine ih _ x ?_
    rw [members_onJoinRoom, mem_socketJoin]
    exact Or.inl hx

/-- C14, amended. For every registered connection and every identity whose role is a
non-empty string, handling `authenticate` adds exactly one membership, that of
the connection in role:<role>, and no other; and after any further `join:room`
messages, from this or other connections, the connection is still a member of
role:<role>. -/
theorem authenticate_joins_role_topic (st : SocketServer) (sid : String) (client : Client)
    (userData : UserData) (role : String)
    (hreg : mapGet st.connectedClients sid = some client)
    (hrole : userData.role = some role) (hne : role ≠ "") :
    (∀ x, x ∈ (onAuthenticate st sid userData).members
        ↔ x ∈ st.members ∨ x = ("role:" ++ role, sid))
      ∧ (∀ joins : List (String × String), ("role:" ++ role, sid)
          ∈ (joins.foldl (fun s j => onJoinRoom s j.1 j.2)
              (onAuthenticate st sid userData)).members) := by
  have hm := members_onAuthenticate st sid userData role client hreg
    (by simp [roleTruthy, hrole, hne])
  have h1 : ∀ x, x ∈ (onAuthenticate st sid userData).members
      ↔ x ∈ st.members ∨ x = ("role:" ++ role, sid) := by
    intro x
    rw [hm, mem_socketJoin]
  exact ⟨h1, fun joins => mem_joins joins _ _ ((h1 _).mpr (Or.inr rfl))⟩

/-- C14 amended, at work: a doctor who then joins two patient rooms stays in role:DOCTOR. -/
theorem authenticate_joins_role_topic_witness :
    (onAuthenticate twoConnections "doctor-socket" doctorUser).members
        = [("role:DOCTOR", "doctor-socket")]
      ∧ ("role:DOCTOR", "doctor-socket")
          ∈ (onJoinRoom (onJoinRoom (onAuthenticate twoConnections "doctor-socket" doctorUser)
              "doctor-socket" "patient:p1") "doctor-socket" "patient:p2").members :=
  ⟨by decide,
   (authenticate_joins_role_topic twoConnections "doctor-socket"
      { id := "doctor-socket", connectedAt := 0, user := none, rooms := [] }
      doctorUser "DOCTOR" (by decide) rfl (by decide)).2
      [("doctor-socket", "patient:p1"), ("doctor-socket", "patient:p2")]⟩

/-- The two subscribe listeners and `join:room` produce the same membership. -/
theorem subscribe_members_eq_join (st : SocketServer) (sid patientId : String) :
    (onSubscribeDashboard st sid).members = (onJoinRoom st sid "dashboard").members
      ∧ (onSubscribePatient st sid patientId).members
          = (onJoinRoom st sid ("patient:" ++ patientId)).members := by
  rw [members_onJoinRoom, members_onJoinRoom]
  exact ⟨rfl, rfl⟩

/-- C15, at its failing input. For a registered connection the subscribe listeners and
`join:room` agree on membership but not on the registry entry: `join:room`
records the topic in `rooms`, `subscribe:dashboard` and `subscribe:patient`
leave `rooms` empty. -/
theorem subscribe_does_not_record_room :
    (onSubscribeDashboard twoConnections "doctor-socket").members
        = (onJoinRoom twoConnections "doctor-socket" "dashboard").members
      ∧ (mapGet (onSubscribeDashboard twoConnections "doctor-socket").connectedClients
          "doctor-socket").map (fun c => c.rooms) = some []
      ∧ (mapGet (onJoinRoom twoConnections "doctor-socket" "dashboard").connectedClients
          "doctor-socket").map (fun c => c.rooms) = some ["dashboard"]
      ∧ (mapGet (onSubscribePatient twoConnections "doctor-socket" "p1").connectedClients
          "doctor-socket").map (fun c => c.rooms) = some []
      ∧ (mapGet (onJoinRoom twoConnections "doctor-socket" "patient:p1").connectedClients
          "doctor-socket").map (fun c => c.rooms) = some ["patient:p1"] := by
  decide

/-- C16. For every patient `emitPatientUpdate` makes exactly two publishes, both of event
patient:updated with an envelope of type PATIENT_UPDATED whose data is the
patient, the first to topic dashboard and the second to topic
patient:<patient id>; a connection that is a member of both topics receives
both. -/
theorem emitPatientUpdate_publishes_twice (t₁ t₂ : String) (patient : Patient) :
    (emitPatientUpdate t₁ t₂ patient).map
        (fun e => (e.room, e.event, e.payload.type, e.payload.data))
      = [("dashboard", "patient:updated", "PATIENT_UPDATED", .patient patient),
         ("patient:" ++ patient.id, "patient:updated", "PATIENT_UPDATED", .patient patient)]
    ∧ ∀ (st : SocketServer) (sid : String), ("dashboard", sid) ∈ st.members →
        ("patient:" ++ patient.id, sid) ∈ st.members →
        (received st (emitPatientUpdate t₁ t₂ patient) sid).map
            (fun r => (r.1, r.2.type, r.2.data))
          = [("patient:updated", "PATIENT_UPDATED", .patient patient),
             ("patient:updated", "PATIENT_UPDATED", .patient patient)] := by
  refine ⟨rfl, ?_⟩
  intro st sid hd hp
  simp [received, emitPatientUpdate, hd, hp]

/-- C16 at work: a connection watching the dashboard and patient p1 gets the update of
p1 twice. -/
theorem emitPatientUpdate_publishes_twice_witness :
    (received watchingBoth (emitPatientUpdate "t1" "t2" (demoPatient none)) "doctor-socket").map
        (fun r => (r.1, r.2.type, r.2.data))
      = [("patient:updated", "PATIENT_UPDATED", .patient (demoPatient none)),
         ("patient:updated", "PATIENT_UPDATED", .patient (demoPatient none))] :=
  (emitPatientUpdate_publishes_twice "t1" "t2" (demoPatient none)).2 watchingBoth
    "doctor-socket" (by decide) (by decide)

/-- C17. For every patient and oldStatus `emitStatusChange` makes exactly one publish: to
topic dashboard, event patient:status, with an envelope of type STATUS_CHANGE whose
data is the patient's id, the given oldStatus, the patient's current status as
newStatus, and the patient. -/
theorem emitStatusChange_publishes_once (t : String) (patient : Patient) (oldStatus : String) :
    (emitStatusChange t patient oldStatus).map
        (fun e => (e.room, e.event, e.payload.type, e.payload.data))
      = [("dashboard", "patient:status", "STATUS_CHANGE",
          .statusChange patient.id oldStatus patient.status patient)]
    ∧ (emitStatusChange t patient oldStatus).length = 1
    ∧ ∀ e ∈ emitStatusChange t patient oldStatus, e.room = "dashboard" := by
  refine ⟨rfl, rfl, ?_⟩
  intro e he
  simp only [emitStatusChange, List.mem_singleton] at he
  rw [he]

/-- C18, as the specification states it, fails: when the response carries an empty
string as `summary` and as `model_version`, both present, `getPrediction` does
not return them: it returns `null` and `'v1.0'`. -/
theorem empty_summary_not_returned :
    ¬ ∃ r, getPrediction emptyTextService demoVitals = .ok r
      ∧ r.data.generatedSummary = emptyTextBody.summary
      ∧ r.data.modelVersion = emptyTextBody.model_version := by
  rintro ⟨r, h, hs, -⟩
  have hr : r.data.generatedSummary = .null := by
    cases h
    rfl
  rw [hr] at hs
  exact absurd hs (by decide)

/-- C18, amended. When the scoring call succeeds with response body `r`, `getPrediction`
returns success true and data with needsICU, riskScore, riskLevel and confidence
copied from `r`, modelVersion equal to `r.model_version` when that is truthy and
to `'v1.0'` otherwise, and generatedSummary equal to `r.summary` when that is
truthy and to `null` otherwise. -/
theorem getPrediction_success_mapping (post : ScoringService) (pd : PatientData)
    (body : ResponseBody) (hpost : post (buildPayload pd) = .ok { data := some body }) :
    getPrediction post pd = .ok
      { success := true
        error := none
        data :=
          { needsICU := body.needs_icu
            riskScore := body.risk_score
            riskLevel := body.risk_level
            confidence := body.confidence
            modelVersion :=
              if body.model_version.truthy = true then body.model_version else .string "v1.0"
            generatedSummary :=
              if body.summary.truthy = true then body.summary else .null } } := by
  simp [getPrediction, getPredictionTry, hpost, JSValue.or]

/-- C18 amended, at work on the off-scale response, which has neither field. -/
theorem getPrediction_success_mapping_witness :
    getPrediction offScaleService demoVitals = .ok
      { success := true
        error := none
        data :=
          { needsICU := .bool false
            riskScore := .number (JSNum.ofRatio 5 1)
            riskLevel := .string "Low"
            confidence := .number (JSNum.ofRatio 9 10)
            modelVersion := .string "v1.0"
            generatedSummary := .null } } :=
  getPrediction_success_mapping offScaleService demoVitals offScaleBody rfl

/-- C19, as the specification states it, fails: a lactate level of 0 is present in
patientData, yet the payload carries 2.0. -/
theorem zero_lactate_replaced :
    zeroLactateVitals.lactateLevel = .number (JSNum.ofRatio 0 1)
      ∧ (buildPayload zeroLactateVitals).lactate_level = .number (JSNum.ofRatio 2 1)
      ∧ (buildPayload zeroLactateVitals).lactate_level ≠ zeroLactateVitals.lactateLevel := by
  decide

/-- C19, amended. For every patientData the payload has gcs_score equal to
`patientData.gcsScore` when that is truthy and 14 otherwise, lactate_level equal
to `patientData.lactateLevel` when that is truthy and 2.0 otherwise, and the
other eight fields copied from patientData. -/
theorem buildPayload_fields (pd : PatientData) :
    (buildPayload pd).gcs_score
        = (if pd.gcsScore.truthy = true then pd.gcsScore else .number (JSNum.ofRatio 14 1))
      ∧ (buildPayload pd).lactate_level
        = (if pd.lactateLevel.truthy = true then pd.lactateLevel
            else .number (JSNum.ofRatio 2 1))
      ∧ (buildPayload pd).age = pd.age
      ∧ (buildPayload pd).gender = pd.gender
      ∧ (buildPayload pd).heart_rate = pd.heartRate
      ∧ (buildPayload pd).systolic_blood_pressure = pd.bloodPressureSystolic
      ∧ (buildPayload pd).diastolic_blood_pressure = pd.bloodPressureDiastolic
      ∧ (buildPayload pd).oxygen_saturation = pd.oxygenSaturation
      ∧ (buildPayload pd).temperature = pd.temperature
      ∧ (buildPayload pd).respiratory_rate = pd.respiratoryRate :=
  ⟨rfl, rfl, rfl, rfl, rfl, rfl, rfl, rfl, rfl, rfl⟩

/-- C20. For every vitals record the generatedSummary of `calculateFallbackPrediction`
is 'Fallback prediction: N risk factors identified. ML service unavailable.' with
N the number of the five threshold rules that fired; the age plays no part in it. -/
theorem fallback_summary_counts_rules (pd : PatientData) :
    (calculateFallbackPrediction pd).generatedSummary =
        .string ("Fallback prediction: "
          ++ toString
              (indicator (pd.heartRate.gt (JSNum.ofRatio 120 1)
                  || pd.heartRate.lt (JSNum.ofRatio 50 1))
               + indicator (pd.bloodPressureSystolic.gt (JSNum.ofRatio 180 1)
                  || pd.bloodPressureSystolic.lt (JSNum.ofRatio 90 1))
               + indicator (pd.oxygenSaturation.lt (JSNum.ofRatio 92 1))
               + indicator (pd.temperature.gt (JSNum.ofRatio 39 1)
                  || pd.temperature.lt (JSNum.ofRatio 35 1))
               + indicator (pd.respiratoryRate.gt (JSNum.ofRatio 25 1)
                  || pd.respiratoryRate.lt (JSNum.ofRatio 10 1)))
          ++ " risk factors identified. ML service unavailable.")
    ∧ ∀ age : JSNum, (calculateFallbackPrediction { pd with age := age }).generatedSummary
        = (calculateFallbackPrediction pd).generatedSummary := by
  have key : ∀ q : PatientData, (calculateFallbackPrediction q).generatedSummary =
        .string ("Fallback prediction: "
          ++ toString
              (indicator (q.heartRate.gt (JSNum.ofRatio 120 1)
                  || q.heartRate.lt (JSNum.ofRatio 50 1))
               + indicator (q.bloodPressureSystolic.gt (JSNum.ofRatio 180 1)
                  || q.bloodPressureSystolic.lt (JSNum.ofRatio 90 1))
               + indicator (q.oxygenSaturation.lt (JSNum.ofRatio 92 1))
               + indicator (q.temperature.gt (JSNum.ofRatio 39 1)
                  || q.temperature.lt (JSNum.ofRatio 35 1))
               + indicator (q.respiratoryRate.gt (JSNum.ofRatio 25 1)
                  || q.respiratoryRate.lt (JSNum.ofRatio 10 1)))
          ++ " risk factors identified. ML service unavailable.") := by
    intro q
    unfold calculateFallbackPrediction
    generalize (q.heartRate.gt (JSNum.ofRatio 120 1)
      || q.heartRate.lt (JSNum.ofRatio 50 1)) = b₁
    generalize (q.bloodPressureSystolic.gt (JSNum.ofRatio 180 1)
      || q.bloodPressureSystolic.lt (JSNum.ofRatio 90 1)) = b₂
    generalize q.oxygenSaturation.lt (JSNum.ofRatio 92 1) = b₃
    generalize (q.temperature.gt (JSNum.ofRatio 39 1)
      || q.temperature.lt (JSNum.ofRatio 35 1)) = b₄
    generalize (q.respiratoryRate.gt (JSNum.ofRatio 25 1)
      || q.respiratoryRate.lt (JSNum.ofRatio 10 1)) = b₅
    generalize q.age.gt (JSNum.ofRatio 70 1) = b₆
    revert b₁ b₂ b₃ b₄ b₅ b₆
    decide
  refine ⟨key pd, ?_⟩
  intro age
  rw [key, key]

/-! ## Fallback determinism, registry lifecycle and the create and update handlers -/

/-- C21. The result of `calculateFallbackPrediction` is a function of the vitals alone: two
records with the same age, heart rate, systolic pressure, oxygen saturation,
temperature and respiratory rate get the same result, hence the same riskScore,
riskLevel and needsICU; and every result has confidence 0.6 and modelVersion
'fallback-v1.0'. -/
theorem fallback_deterministic (pd pd' : PatientData)
    (hage : pd.age = pd'.age) (hhr : pd.heartRate = pd'.heartRate)
    (hbp : pd.bloodPressureSystolic = pd'.bloodPressureSystolic)
    (hox : pd.oxygenSaturation = pd'.oxygenSaturation)
    (htemp : pd.temperature = pd'.temperature)
    (hrr : pd.respiratoryRate = pd'.respiratoryRate) :
    calculateFallbackPrediction pd = calculateFallbackPrediction pd'
      ∧ (calculateFallbackPrediction pd).riskScore = (calculateFallbackPrediction pd').riskScore
      ∧ (calculateFallbackPrediction pd).riskLevel = (calculateFallbackPrediction pd').riskLevel
      ∧ (calculateFallbackPrediction pd).needsICU = (calculateFallbackPrediction pd').needsICU
      ∧ (calculateFallbackPrediction pd).confidence = .number (JSNum.ofRatio 6 10)
      ∧ (calculateFallbackPrediction pd).modelVersion = .string "fallback-v1.0" := by
  have h : calculateFallbackPrediction pd = calculateFallbackPrediction pd' := by
    unfold calculateFallbackPrediction
    rw [hage, hhr, hbp, hox, htemp, hrr]
  exact ⟨h, by rw [h], by rw [h], by rw [h], rfl, rfl⟩

/-- C21 at work: the demo vitals give the same result whoever submits them and whatever
the notes say. -/
theorem fallback_deterministic_witness :
    calculateFallbackPrediction demoVitals
        = calculateFallbackPrediction
            { demoVitals with notes := .string "second call", submittedBy := "paramedic-2" }
      ∧ (calculateFallbackPrediction demoVitals).confidence = .number (JSNum.ofRatio 6 10) :=
  ⟨(fallback_deterministic demoVitals
      { demoVitals with notes := .string "second call", submittedBy := "paramedic-2" }
      rfl rfl rfl rfl rfl rfl).1,
   (fallback_deterministic demoVitals demoVitals rfl rfl rfl rfl rfl rfl).2.2.2.2.1⟩

/-- A number that is `<=` another is not `>` it. -/
theorem JSNum.gt_false_of_le (x y : JSNum) (h : x.le y = true) : x.gt y = false := by
  unfold JSNum.le JSNum.ge at h
  unfold JSNum.gt
  cases y <;> cases x <;> simp_all

/-- A number that is `>=` another is not `<` it. -/
theorem JSNum.lt_false_of_ge (x y : JSNum) (h : x.ge y = true) : x.lt y = false := by
  unfold JSNum.ge at h
  cases y <;> cases x <;> simp_all

/-- C22. For every vitals record with 50 <= heartRate <= 120, 90 <= bloodPressureSystolic
<= 180, oxygenSaturation >= 92, 35 <= temperature <= 39, 10 <= respiratoryRate
<= 25 and age <= 70, `calculateFallbackPrediction` returns riskScore 0, riskLevel
Low and needsICU false. -/
theorem fallback_normal_vitals (pd : PatientData)
    (hhr₁ : pd.heartRate.ge (JSNum.ofRatio 50 1) = true)
    (hhr₂ : pd.heartRate.le (JSNum.ofRatio 120 1) = true)
    (hbp₁ : pd.bloodPressureSystolic.ge (JSNum.ofRatio 90 1) = true)
    (hbp₂ : pd.bloodPressureSystolic.le (JSNum.ofRatio 180 1) = true)
    (hox : pd.oxygenSaturation.ge (JSNum.ofRatio 92 1) = true)
    (htemp₁ : pd.temperature.ge (JSNum.ofRatio 35 1) = true)
    (htemp₂ : pd.temperature.le (JSNum.ofRatio 39 1) = true)
    (hrr₁ : pd.respiratoryRate.ge (JSNum.ofRatio 10 1) = true)
    (hrr₂ : pd.respiratoryRate.le (JSNum.ofRatio 25 1) = true)
    (hage : pd.age.le (JSNum.ofRatio 70 1) = true) :
    (calculateFallbackPrediction pd).riskScore = .number (JSNum.ofRatio 0 1)
      ∧ (calculateFallbackPrediction pd).riskLevel = .string "Low"
      ∧ (calculateFallbackPrediction pd).needsICU = .bool false := by
  have c₁ : (pd.heartRate.gt (JSNum.ofRatio 120 1)
      || pd.heartRate.lt (JSNum.ofRatio 50 1)) = false := by
    rw [JSNum.gt_false_of_le _ _ hhr₂, JSNum.lt_false_of_ge _ _ hhr₁]; rfl
  have c₂ : (pd.bloodPressureSystolic.gt (JSNum.ofRatio 180 1)
      || pd.bloodPressureSystolic.lt (JSNum.ofRatio 90 1)) = false := by
    rw [JSNum.gt_false_of_le _ _ hbp₂, JSNum.lt_false_of_ge _ _ hbp₁]; rfl
  have c₃ : pd.oxygenSaturation.lt (JSNum.ofRatio 92 1) = false :=
    JSNum.lt_false_of_ge _ _ hox
  have c₄ : (pd.temperature.gt (JSNum.ofRatio 39 1)
      || pd.temperature.lt (JSNum.ofRatio 35 1)) = false := by
    rw [JSNum.gt_false_of_le _ _ htemp₂, JSNum.lt_false_of_ge _ _ htemp₁]; rfl
  have c₅ : (pd.respiratoryRate.gt (JSNum.ofRatio 25 1)
      || pd.respiratoryRate.lt (JSNum.ofRatio 10 1)) = false := by
    rw [JSNum.gt_false_of_le _ _ hrr₂, JSNum.lt_false_of_ge _ _ hrr₁]; rfl
  have c₆ : pd.age.gt (JSNum.ofRatio 70 1) = false := JSNum.gt_false_of_le _ _ hage
  unfold calculateFallbackPrediction
  rw [c₁, c₂, c₃, c₄, c₅, c₆]
  decide

/-- C22 at work on a record of age 40 with every vital in range. -/
theorem fallback_normal_vitals_witness :
    (calculateFallbackPrediction normalVitals).riskScore = .number (JSNum.ofRatio 0 1)
      ∧ (calculateFallbackPrediction normalVitals).riskLevel = .string "Low"
      ∧ (calculateFallbackPrediction normalVitals).needsICU = .bool false :=
  fallback_normal_vitals normalVitals (by decide) (by decide) (by decide) (by decide)
    (by decide) (by decide) (by decide) (by decide) (by decide) (by decide)

/-- C23. For every identity, handling `authenticate` for a connection id that is not in
the registry returns the state as it was: registry and memberships unchanged.
The handler is a total function, nothing is raised. -/
theorem authenticate_unknown_noop (st : SocketServer) (sid : String) (userData : UserData)
    (h : mapGet st.connectedClients sid = none) :
    onAuthenticate st sid userData = st
      ∧ (onAuthenticate st sid userData).connectedClients = st.connectedClients
      ∧ (onAuthenticate st sid userData).members = st.members := by
  have e : onAuthenticate st sid userData = st := by
    unfold onAuthenticate
    rw [h]
  exact ⟨e, by rw [e], by rw [e]⟩

/-- C23 at work: the doctor's identity sent after the doctor's socket disconnected. -/
theorem authenticate_unknown_noop_witness :
    mapGet (onDisconnect twoConnections "doctor-socket").connectedClients "doctor-socket" = none
      ∧ onAuthenticate (onDisconnect twoConnections "doctor-socket") "doctor-socket" doctorUser
          = onDisconnect twoConnections "doctor-socket" :=
  ⟨by decide,
   (authenticate_unknown_noop (onDisconnect twoConnections "doctor-socket") "doctor-socket"
      doctorUser (by decide)).1⟩

/-- C24, as the specification states it, fails: running the connection handler a
second time for an id that has authenticated since replaces its entry; the
identity and the recorded topic are gone. -/
theorem second_registration_resets_entry :
    mapGet doctorAuthenticated.connectedClients "doctor-socket"
        = some { id := "doctor-socket", connectedAt := 0, user := some doctorUser
                 rooms := ["role:DOCTOR"] }
      ∧ mapGet (onConnection doctorAuthenticated "doctor-socket" 7).connectedClients
          "doctor-socket"
        = some { id := "doctor-socket", connectedAt := 7, user := none, rooms := [] }
      ∧ onConnection doctorAuthenticated "doctor-socket" 7 ≠ doctorAuthenticated := by
  decide

/-- C24, amended. Running the connection handler for an id leaves the registry with an
entry for it that has no identity and no topics, whether or not the id was
registered before (an existing entry is replaced by the fresh one); the entries
of the other ids and all memberships are unchanged. -/
theorem connection_sets_fresh_entry (st : SocketServer) (sid : String) (now : Nat) :
    mapGet (onConnection st sid now).connectedClients sid
        = some { id := sid, connectedAt := now, user := none, rooms := [] }
      ∧ (∀ other, other ≠ sid →
          mapGet (onConnection st sid now).connectedClients other
            = mapGet st.connectedClients other)
      ∧ (onConnection st sid now).members = st.members := by
  refine ⟨?_, ?_, rfl⟩
  · simp [onConnection, mapGet_mapSet]
  · intro other hne
    simp [onConnection, mapGet_mapSet, Ne.symm hne]

/-- C24 amended, at work: re-running the handler for the authenticated doctor's id
leaves the paramedic's entry and the doctor's membership of role:DOCTOR in place. -/
theorem connection_sets_fresh_entry_witness :
    mapGet (onConnection doctorAuthenticated "doctor-socket" 7).connectedClients
        "paramedic-socket"
        = mapGet doctorAuthenticated.connectedClients "paramedic-socket"
      ∧ (onConnection doctorAuthenticated "doctor-socket" 7).members
        = [("role:DOCTOR", "doctor-socket")] :=
  ⟨(connection_sets_fresh_entry doctorAuthenticated "doctor-socket" 7).2.1
      "paramedic-socket" (by decide),
   (connection_sets_fresh_entry doctorAuthenticated "doctor-socket" 7).2.2.trans (by decide)⟩

/-- A key is absent from the map exactly when `get` finds nothing. -/
theorem mapGet_eq_none_iff (m : List (String × Client)) (key : String) :
    mapGet m key = none ↔ key ∉ m.map Prod.fst := by
  induction m with
  | nil => simp [mapGet]
  | cons head rest ih =>
    obtain ⟨k, v⟩ := head
    by_cases hk : k = key
    · simp [mapGet, hk]
    · simp [mapGet, hk, ih, Ne.symm hk]

/-- The keys after a `set`: the same keys, or the new key appended. -/
theorem keys_mapSet (m : List (String × Client)) (key : String) (value : Client) :
    (mapSet m key value).map Prod.fst
      = if key ∈ m.map Prod.fst then m.map Prod.fst else m.map Prod.fst ++ [key] := by
  induction m with
  | nil => simp [mapSet]
  | cons head rest ih =>
    obtain ⟨k, v⟩ := head
    by_cases hk : k = key
    · simp [mapSet, hk]
    · simp only [mapSet, if_neg hk, List.map_cons, ih, List.mem_cons, Ne.symm hk, false_or]
      split <;> simp

/-- Deleting an absent key leaves the map as it is. -/
theorem mapDelete_of_absent (m : List (String × Client)) (key : String)
    (h : mapGet m key = none) : mapDelete m key = m := by
  unfold mapDelete
  rw [List.filter_eq_self]
  intro kv hkv
  simp only [decide_eq_true_eq]
  intro hk
  exact (mapGet_eq_none_iff m key).mp h (hk ▸ List.mem_map_of_mem Prod.fst hkv)

/-- Deleting a present key from a map with distinct keys removes one entry. -/
theorem length_mapDelete (m : List (String × Client)) (key : String)
    (hnodup : (m.map Prod.fst).Nodup) (h : (mapGet m key).isSome = true) :
    (mapDelete m key).length + 1 = m.length := by
  induction m with
  | nil => simp [mapGet] at h
  | cons head rest ih =>
    obtain ⟨k, v⟩ := head
    simp only [List.map_cons, List.nodup_cons] at hnodup
    by_cases hk : k = key
    · subst hk
      have habs : mapGet rest k = none := (mapGet_eq_none_iff rest k).mpr hnodup.1
      have hrest := mapDelete_of_absent rest k habs
      unfold mapDelete at hrest ⊢
      rw [List.filter_cons_of_neg (by simp), hrest]
      rfl
    · simp only [mapGet, if_neg hk] at h
      have := ih hnodup.2 h
      unfold mapDelete at this ⊢
      rw [List.filter_cons_of_pos (by simpa using hk)]
      simp only [List.length_cons]
      omega

/-- Every listener keeps the keys of the registry distinct. -/
theorem keysDistinct_handleEvent (st : SocketServer) (ev : SocketEvent)
    (h : keysDistinct st) : keysDistinct (handleEvent st ev) := by
  unfold keysDistinct at h ⊢
  have hset : ∀ (key : String) (value : Client),
      ((mapSet st.connectedClients key value).map Prod.fst).Nodup := by
    intro key value
    rw [keys_mapSet]
    split
    · exact h
    · rename_i hk
      refine List.Nodup.append h (List.nodup_singleton _) ?_
      intro a ha hb
      rw [List.mem_singleton] at hb
      exact hk (hb ▸ ha)
  cases ev with
  | connection sid now => exact hset _ _
  | authenticate sid userData =>
    simp only [handleEvent, onAuthenticate]
    cases hc : mapGet st.connectedClients sid with
    | none => exact h
    | some client =>
      cases hrole : roleTruthy userData.role with
      | none => exact hset _ _
      | some role => exact hset _ _
  | joinRoom sid roomName =>
    simp only [handleEvent, onJoinRoom]
    cases hc : mapGet st.connectedClients sid with
    | none => exact h
    | some client => exact hset _ _
  | leaveRoom sid roomName =>
    simp only [handleEvent, onLeaveRoom]
    cases hc : mapGet st.connectedClients sid with
    | none => exact h
    | some client => exact hset _ _
  | subscribeDashboard sid => exact h
  | subscribePatient sid patientId => exact h
  | disconnect sid =>
    simp only [handleEvent, onDisconnect, mapDelete]
    exact List.Nodup.sublist (List.Sublist.map _ (List.filter_sublist _)) h

/-- The keys of the registry are distinct in every reachable state. -/
theorem keysDistinct_of_reachable (st : SocketServer) (h : Reachable st) : keysDistinct st := by
  obtain ⟨events, rfl⟩ := h
  have key : ∀ (evs : List SocketEvent) (s : SocketServer),
      keysDistinct s → keysDistinct (runEvents s evs) := by
    intro evs
    induction evs with
    | nil => intro s hs; exact hs
    | cons ev rest ih =>
      intro s hs
      exact ih _ (keysDistinct_handleEvent s ev hs)
  refine key events _ ?_
  simp [keysDistinct, SocketServer.init]

/-- C25. Handling `disconnect` for a connection id leaves no registry entry for it, hence
none of its recorded topics, and no membership of it; other entries are untouched.
In a reachable state `getConnectedCount` drops by one when the id was registered.
For an id that is not registered, and so for a second `disconnect` of the same
id, the registry and the count are unchanged, and a second `disconnect` changes
nothing at all. The handler is a total function, nothing is raised. -/
theorem disconnect_removes_entry (st : SocketServer) (sid : String) :
    mapGet (onDisconnect st sid).connectedClients sid = none
      ∧ (∀ topic, (topic, sid) ∉ (onDisconnect st sid).members)
      ∧ (∀ other, other ≠ sid →
          mapGet (onDisconnect st sid).connectedClients other
            = mapGet st.connectedClients other)
      ∧ (Reachable st → (mapGet st.connectedClients sid).isSome = true →
          getConnectedCount (onDisconnect st sid) + 1 = getConnectedCount st)
      ∧ (mapGet st.connectedClients sid = none →
          (onDisconnect st sid).connectedClients = st.connectedClients
            ∧ getConnectedCount (onDisconnect st sid) = getConnectedCount st)
      ∧ onDisconnect (onDisconnect st sid) sid = onDisconnect st sid := by
  have hgone : mapGet (onDisconnect st sid).connectedClients sid = none := by
    simp [onDisconnect, mapGet_mapDelete]
  have hmem : ∀ topic, (topic, sid) ∉ (onDisconnect st sid).members := by
    intro topic
    simp [onDisconnect]
  refine ⟨hgone, hmem, ?_, ?_, ?_, ?_⟩
  · intro other hne
    simp [onDisconnect, mapGet_mapDelete, Ne.symm hne]
  · intro hreach hreg
    exact length_mapDelete st.connectedClients sid (keysDistinct_of_reachable st hreach) hreg
  · intro habs
    have e : (onDisconnect st sid).connectedClients = st.connectedClients :=
      mapDelete_of_absent st.connectedClients sid habs
    exact ⟨e, by unfold getConnectedCount; rw [e]⟩
  · have e₁ : mapDelete (onDisconnect st sid).connectedClients sid
        = (onDisconnect st sid).connectedClients :=
      mapDelete_of_absent _ sid hgone
    have e₂ : (onDisconnect st sid).members.filter (fun m => decide (m.2 ≠ sid))
        = (onDisconnect st sid).members := by
      rw [List.filter_eq_self]
      rintro ⟨a, b⟩ hm
      simp only [decide_eq_true_eq]
      intro hms
      have hb : b = sid := hms
      subst hb
      exact hmem a hm
    show ({ connectedClients := mapDelete (onDisconnect st sid).connectedClients sid
            members := (onDisconnect st sid).members.filter (fun m => decide (m.2 ≠ sid)) }
          : SocketServer) = _
    rw [e₁, e₂]

/-- C25 at work: of two registered connections one is left after the doctor's
disconnects, and still one after it disconnects again. -/
theorem disconnect_removes_entry_witness :
    getConnectedCount twoConnections = 2
      ∧ getConnectedCount (onDisconnect twoConnections "doctor-socket") + 1
          = getConnectedCount twoConnections
      ∧ getConnectedCount (onDisconnect (onDisconnect twoConnections "doctor-socket")
          "doctor-socket") = getConnectedCount (onDisconnect twoConnections "doctor-socket") :=
  ⟨by decide,
   (disconnect_removes_entry twoConnections "doctor-socket").2.2.2.1
      ⟨[.connection "doctor-socket" 0, .connection "paramedic-socket" 1], rfl⟩ (by decide),
   ((disconnect_removes_entry (onDisconnect twoConnections "doctor-socket")
      "doctor-socket").2.2.2.2.1 (by decide)).2⟩

/-- C30. In every state reachable through the socket handlers, every topic recorded in
the rooms list of a registered connection is a topic the connection is a member
of. The converse fails: there is a reachable state, one connection followed by
`subscribe:dashboard`, in which the connection is a member of dashboard while
`getConnectedClients` reports no rooms for it. -/
theorem recorded_rooms_are_memberships :
    (∀ st, Reachable st → ∀ sid client, mapGet st.connectedClients sid = some client →
        ∀ topic ∈ client.rooms, (topic, sid) ∈ st.members)
      ∧ ∃ st, Reachable st
          ∧ ("dashboard", "doctor-socket") ∈ st.members
          ∧ getConnectedClients st = [("doctor-socket", 0, none, [])] := by
  refine ⟨fun st h => roomsRecordedAreJoined_of_reachable st h, ?_⟩
  refine ⟨runEvents SocketServer.init
    [.connection "doctor-socket" 0, .subscribeDashboard "doctor-socket"], ⟨_, rfl⟩, ?_, ?_⟩
  · decide
  · rfl

/-- C30 at work: the authenticated doctor's recorded topic is a membership. -/
theorem recorded_rooms_are_memberships_witness :
    ("role:DOCTOR", "doctor-socket") ∈ doctorAuthenticated.members :=
  recorded_rooms_are_memberships.1 doctorAuthenticated
    ⟨[.connection "doctor-socket" 0, .connection "paramedic-socket" 1,
      .authenticate "doctor-socket" doctorUser], rfl⟩
    "doctor-socket"
    { id := "doctor-socket", connectedAt := 0, user := some doctorUser, rooms := ["role:DOCTOR"] }
    (by decide) "role:DOCTOR" (by decide)

/-- The prediction the hook stores: the level replaced by the bucket of the score. -/
theorem preSave_prediction (doc : Patient) (prediction : Prediction) (riskScore : JSNum)
    (hp : doc.prediction = some prediction) (hs : prediction.riskScore = some riskScore) :
    (preSave doc).prediction
      = some { prediction with riskLevel := some (specRiskLevel riskScore) } := by
  unfold preSave specRiskLevel
  simp only [hp, hs]
  split
  · rfl
  · split
    · rfl
    · split <;> rfl

/-- The hook leaves a document without a score as it is. -/
theorem preSave_of_no_score (doc : Patient) (prediction : Prediction)
    (hp : doc.prediction = some prediction) (hs : prediction.riskScore = none) :
    preSave doc = doc := by
  unfold preSave
  simp only [hp, hs]

/-- The priority the hook stores. -/
theorem preSave_priority (doc : Patient) (prediction : Prediction) (riskScore : JSNum)
    (hp : doc.prediction = some prediction) (hs : prediction.riskScore = some riskScore) :
    (preSave doc).priority = (specLevelAndPriority riskScore).2 := by
  unfold preSave specLevelAndPriority
  simp only [hp, hs]
  split
  · rfl
  · split
    · rfl
    · split <;> rfl

/-- C26, as the specification states it, fails: when the scoring dependency answers
0.9 labelled Low, `getPrediction` returns that label and the create handler
answers 201 with a patient whose stored prediction is labelled Critical. -/
theorem create_relabels_prediction :
    ∃ result response,
      getPrediction mislabelledService (buildPatientData demoVitals "paramedic-1") = .ok result
      ∧ result.data.riskLevel = .string "Low"
      ∧ (postPatient statusOnlyLayer demoConstruct mislabelledService demoVitals "paramedic-1"
          true "t1" "t2").response = .ok response
      ∧ response.patient.prediction.map Prediction.toData ≠ some result.data
      ∧ (response.patient.prediction.map Prediction.toData).map (fun d => d.riskLevel)
          = some (.string "Critical") := by
  refine ⟨_, _, rfl, rfl, rfl, ?_, ?_⟩
  · decide
  · decide

/-- C26, amended. For every create request and every outcome of the scoring call,
`getPrediction` returns a result and, provided Mongoose accepts the document
built from the request and that result, the handler answers 201 with
mlServiceStatus connected when the result came from the scoring dependency and
fallback when it is the fallback, and with the document as the pre-save hook
leaves it: the stored prediction is the returned data with riskLevel re-derived
from riskScore when the score is not null, and the returned data as it is when
the score is null or the result is the fallback. A scoring failure is not an
error of the handler. -/
theorem postPatient_outcome (layer : DocumentLayer)
    (construct : PatientData → PredictionData → Except String Patient)
    (post : ScoringService) (body : PatientData) (userId : String) (io : Bool)
    (t₁ t₂ : String) :
    ∃ result, getPrediction post (buildPatientData body userId) = .ok result
      ∧ (result.success = false →
          result.data = calculateFallbackPrediction (buildPatientData body userId))
      ∧ ∀ doc, construct (buildPatientData body userId) result.data = .ok doc →
          layer.valid doc = true →
          (postPatient layer construct post body userId io t₁ t₂).response
              = .ok { statusCode := 201
                      mlServiceStatus := if result.success then "connected" else "fallback"
                      patient := preSave doc }
            ∧ ∀ prediction, doc.prediction = some prediction →
                prediction.toData = result.data →
                (∀ s, prediction.riskScore = some s →
                    (preSave doc).prediction
                      = some { prediction with riskLevel := some (specRiskLevel s) })
                  ∧ (prediction.riskScore = none → (preSave doc).prediction = some prediction)
                  ∧ (result.success = false → (preSave doc).prediction = some prediction) := by
  have hex : ∃ result, getPrediction post (buildPatientData body userId) = .ok result
      ∧ (result.success = false →
          result.data = calculateFallbackPrediction (buildPatientData body userId)) := by
    unfold getPrediction getPredictionTry
    cases hpost : post (buildPayload (buildPatientData body userId)) with
    | error message => exact ⟨_, rfl, fun _ => rfl⟩
    | ok response =>
      obtain ⟨data⟩ := response
      cases data with
      | none => exact ⟨_, rfl, fun _ => rfl⟩
      | some b => exact ⟨_, rfl, fun h => by simp at h⟩
  obtain ⟨result, hres, hfb⟩ := hex
  refine ⟨result, hres, hfb, ?_⟩
  intro doc hdoc hvalid
  refine ⟨?_, ?_⟩
  · simp [postPatient, hres, hdoc, save, hvalid]
  · intro prediction hp hdata
    refine ⟨fun s hs => preSave_prediction doc prediction s hp hs, ?_, ?_⟩
    · intro hs
      rw [preSave_of_no_score doc prediction hp hs, hp]
    · intro hfail
      obtain ⟨x, hx, hl⟩ :=
        fallback_level_of_returned_score (buildPatientData body userId)
      rw [← hfb hfail, ← hdata] at hx hl
      have hs : prediction.riskScore = some x := by
        cases h : prediction.riskScore with
        | none => simp [Prediction.toData, h] at hx
        | some y => simpa [Prediction.toData, h] using hx
      have hlv : prediction.riskLevel = some (fallbackRiskLevel x) := by
        cases h : prediction.riskLevel with
        | none => simp [Prediction.toData, h] at hl
        | some y => simpa [Prediction.toData, h] using hl
      rw [preSave_prediction doc prediction x hp hs]
      have e : specRiskLevel x = fallbackRiskLevel x := rfl
      rw [e, ← hlv]

/-- C26 amended, at work: the demo request with the scoring dependency unreachable is
answered 201 with status fallback. -/
theorem postPatient_outcome_witness :
    ∃ response, (postPatient statusOnlyLayer demoConstruct unreachableService demoVitals
        "paramedic-1" true "t1" "t2").response = .ok response
      ∧ response.statusCode = 201 ∧ response.mlServiceStatus = "fallback" := by
  obtain ⟨result, hres, -, hdoc⟩ :=
    postPatient_outcome statusOnlyLayer demoConstruct unreachableService demoVitals
      "paramedic-1" true "t1" "t2"
  have hr : result = ⟨false, some "connect ECONNREFUSED",
      calculateFallbackPrediction (buildPatientData demoVitals "paramedic-1")⟩ := by
    have h0 : getPrediction unreachableService (buildPatientData demoVitals "paramedic-1")
        = .ok ⟨false, some "connect ECONNREFUSED",
            calculateFallbackPrediction (buildPatientData demoVitals "paramedic-1")⟩ := rfl
    rw [h0] at hres
    exact (Except.ok.inj hres).symm
  subst hr
  exact ⟨_, (hdoc (demoPatient (some storedDemoFallback)) rfl rfl).1, rfl, rfl⟩

/-- One assignment touches none of the fields outside the five updatable paths. -/
theorem setPath_frame (casts : PathCasts) (doc next : Patient) (key : String) (value : JSValue)
    (h : setPath casts doc key value = .ok next) : sameOutsideUpdatable doc next := by
  unfold setPath at h
  unfold sameOutsideUpdatable
  split at h
  · split at h
    · cases h; rfl
    · cases h
  · split at h
    · split at h
      · cases h; rfl
      · cases h
    · split at h
      · split at h
        · cases h; rfl
        · cases h
      · split at h
        · split at h
          · cases h; rfl
          · cases h
        · split at h
          · split at h
            · cases h; rfl
            · cases h
          · cases h; rfl

/-- Being equal outside the five updatable paths is transitive. -/
theorem sameOutsideUpdatable_trans (p q r : Patient)
    (hpq : sameOutsideUpdatable p q) (hqr : sameOutsideUpdatable q r) :
    sameOutsideUpdatable p r := by
  unfold sameOutsideUpdatable at *
  cases p
  cases q
  cases r
  simp only [Patient.mk.injEq] at *
  simp_all

/-- The call `Object.assign(patient, updates)` touches none of the fields outside the
five updatable paths. -/
theorem assignPaths_frame (casts : PathCasts) (updates : List (String × JSValue)) :
    ∀ (doc q : Patient), assignPaths casts doc updates = .ok q → sameOutsideUpdatable doc q := by
  induction updates with
  | nil =>
    intro doc q h
    simp only [assignPaths, Except.ok.injEq] at h
    subst h
    rfl
  | cons head rest ih =>
    intro doc q h
    obtain ⟨key, value⟩ := head
    unfold assignPaths at h
    cases hset : setPath casts doc key value with
    | error message => rw [hset] at h; cases h
    | ok next =>
      rw [hset] at h
      exact sameOutsideUpdatable_trans doc next q (setPath_frame casts doc next key value hset)
        (ih next q h)

/-- Equality outside the updatable paths includes the prediction. -/
theorem sameOutsideUpdatable_prediction (p q : Patient) (h : sameOutsideUpdatable p q) :
    q.prediction = p.prediction := by
  unfold sameOutsideUpdatable at h
  cases p
  cases q
  simp only [Patient.mk.injEq] at h
  simp_all

/-- The priority the hook derives is never 5. -/
theorem specPriority_ne_five (riskScore : JSNum) :
    (specLevelAndPriority riskScore).2 ≠ JSNum.ofRatio 5 1 := by
  unfold specLevelAndPriority
  split
  · decide
  · split
    · decide
    · split <;> decide

/-- What a successful update answers with: the hook applied to the assigned document. -/
theorem putPatient_ok (layer : DocumentLayer) (patient saved : Patient)
    (body : List (String × JSValue)) (io : Bool) (t₁ t₂ t₃ : String)
    (h : (putPatient layer (some patient) body io t₁ t₂ t₃).response = .ok saved) :
    ∃ assigned, layer.assign patient (buildUpdates body) = .ok assigned
      ∧ layer.valid assigned = true ∧ saved = preSave assigned := by
  unfold putPatient at h
  cases hassign : layer.assign patient (buildUpdates body) with
  | error message => simp [hassign] at h
  | ok assigned =>
    by_cases hvalid : layer.valid assigned = true
    · refine ⟨assigned, rfl, hvalid, ?_⟩
      simp [hassign, save, hvalid] at h
      exact h.symm
    · simp [hassign, save, hvalid] at h

/-- C27. For every patient whose `prediction.riskScore` is not null and every body sent to
the update handler, whatever priority it carries, the patient the handler saves
has the priority the pre-save hook derives from the riskScore, 1, 2, 3 or 4: it
is never 5, and it is the priority of the patient before the update whenever
that one had been saved by the hook. -/
theorem putPatient_priority_from_hook (casts : PathCasts) (valid : Patient → Bool)
    (patient saved : Patient) (prediction : Prediction) (riskScore : JSNum)
    (body : List (String × JSValue)) (io : Bool) (t₁ t₂ t₃ : String)
    (hp : patient.prediction = some prediction)
    (hs : prediction.riskScore = some riskScore)
    (hsaved : (putPatient (pathLayer casts valid) (some patient) body io t₁ t₂ t₃).response
      = .ok saved) :
    saved.priority = (specLevelAndPriority riskScore).2
      ∧ saved.priority ≠ JSNum.ofRatio 5 1
      ∧ (patient.priority = (preSave patient).priority → saved.priority = patient.priority) := by
  obtain ⟨assigned, hassign, -, rfl⟩ := putPatient_ok _ _ _ _ _ _ _ _ hsaved
  have hframe := assignPaths_frame casts (buildUpdates body) patient assigned hassign
  have hpred : assigned.prediction = some prediction := by
    rw [sameOutsideUpdatable_prediction patient assigned hframe, hp]
  have h1 := preSave_priority assigned prediction riskScore hpred hs
  refine ⟨h1, ?_, ?_⟩
  · rw [h1]
    exact specPriority_ne_five riskScore
  · intro hold
    rw [h1, hold, preSave_priority patient prediction riskScore hp hs]

/-- C27 at work: a body asking for priority 5 on a patient scored 0.85 is saved with
priority 1. -/
theorem putPatient_priority_from_hook_witness :
    ∃ saved, (putPatient (pathLayer plainCasts (fun _ => true)) (some scoredPatient)
        [("priority", .number (JSNum.ofRatio 5 1))] true "t1" "t2" "t3").response = .ok saved
      ∧ saved.priority = JSNum.ofRatio 1 1 :=
  ⟨scoredPatient, rfl,
   ((putPatient_priority_from_hook plainCasts (fun _ => true) scoredPatient scoredPatient
      (demoPrediction (some (JSNum.ofRatio 85 100)) (some "Critical")) (JSNum.ofRatio 85 100)
      [("priority", .number (JSNum.ofRatio 5 1))] true "t1" "t2" "t3" rfl rfl rfl).1).trans
      (by decide)⟩

/-- C28. The assign handler never publishes a STATUS_CHANGE envelope: whatever the
patient and the assignee, every envelope it publishes is a `patient:updated`
event of type PATIENT_UPDATED, and what it publishes is either nothing or the
two publishes of `emitPatientUpdate` for the saved patient; so it is when the
handler moves an Incoming patient to Triaged. -/
theorem assignDoctor_emits_updates_only (layer : DocumentLayer) (found : Option Patient)
    (doctorId : Option String) (userRole userId : String) (io : Bool) (t₁ t₂ : String) :
    (∀ e ∈ (assignDoctor layer found doctorId userRole userId io t₁ t₂).emissions,
        e.event = "patient:updated" ∧ e.payload.type = "PATIENT_UPDATED"
          ∧ ¬ isStatusChange e)
      ∧ ((assignDoctor layer found doctorId userRole userId io t₁ t₂).emissions = []
          ∨ ∃ saved, (assignDoctor layer found doctorId userRole userId io t₁ t₂).response
                = .ok saved
              ∧ (assignDoctor layer found doctorId userRole userId io t₁ t₂).emissions
                = emitPatientUpdate t₁ t₂ saved)
      ∧ (∀ patient assigneeId, found = some patient → patient.status = "Incoming" →
          assigneeOf doctorId userRole userId = some assigneeId →
          layer.valid (applyAssignment patient assigneeId) = true → io = true →
          ∃ saved, saved.status = "Triaged"
            ∧ (assignDoctor layer found doctorId userRole userId io t₁ t₂).emissions
                = emitPatientUpdate t₁ t₂ saved) := by
  have hupd : ∀ (saved : Patient), ∀ e ∈ emitPatientUpdate t₁ t₂ saved,
      e.event = "patient:updated" ∧ e.payload.type = "PATIENT_UPDATED"
        ∧ ¬ isStatusChange e := by
    intro saved e he
    unfold isStatusChange
    simp only [emitPatientUpdate, List.mem_cons, List.mem_singleton, List.not_mem_nil,
      or_false] at he
    rcases he with he | he
    · subst he
      refine ⟨rfl, rfl, ?_⟩
      show ¬ ("patient:updated" = "patient:status")
      decide
    · subst he
      refine ⟨rfl, rfl, ?_⟩
      show ¬ ("patient:updated" = "patient:status")
      decide
  have hshape : (assignDoctor layer found doctorId userRole userId io t₁ t₂).emissions = []
      ∨ ∃ saved, (assignDoctor layer found doctorId userRole userId io t₁ t₂).response
            = .ok saved
          ∧ (assignDoctor layer found doctorId userRole userId io t₁ t₂).emissions
            = emitPatientUpdate t₁ t₂ saved := by
    cases found with
    | none => exact Or.inl (by simp [assignDoctor])
    | some patient =>
      cases hassignee : assigneeOf doctorId userRole userId with
      | none => exact Or.inl (by simp [assignDoctor, hassignee])
      | some assigneeId =>
        cases hsave : save layer (applyAssignment patient assigneeId) with
        | error err => exact Or.inl (by simp [assignDoctor, hassignee, hsave])
        | ok saved =>
          cases io with
          | false => exact Or.inl (by simp [assignDoctor, hassignee, hsave])
          | true =>
            exact Or.inr ⟨saved, by simp [assignDoctor, hassignee, hsave],
              by simp [assignDoctor, hassignee, hsave]⟩
  refine ⟨?_, hshape, ?_⟩
  · intro e he
    rcases hshape with h | ⟨saved, -, h⟩
    · rw [h] at he
      cases he
    · rw [h] at he
      exact hupd saved e he
  · intro patient assigneeId hfound hstatus hassignee hvalid hio
    subst hfound
    subst hio
    refine ⟨preSave (applyAssignment patient assigneeId), ?_, ?_⟩
    · rw [(preSave_status _).1]
      simp [applyAssignment, hstatus]
    · simp [assignDoctor, hassignee, save, hvalid]

/-- C28 at work: assigning a doctor to the Incoming demo patient publishes the two
updates of the now Triaged patient and nothing else. -/
theorem assignDoctor_emits_updates_only_witness :
    ∃ saved, saved.status = "Triaged"
      ∧ (assignDoctor objectIdLayer (some (demoPatient none)) (some doctorObjectId) "ADMIN"
          "admin-1" true "t1" "t2").emissions = emitPatientUpdate "t1" "t2" saved :=
  (assignDoctor_emits_updates_only objectIdLayer (some (demoPatient none))
    (some doctorObjectId) "ADMIN" "admin-1" true "t1" "t2").2.2
    (demoPatient none) doctorObjectId rfl rfl rfl (by decide) rfl

/-- C29. For every request body of the update handler, the updates contain exactly the
entries of the body whose key is status, priority, notes, assignedDoctor or
location, each with the body's value; and applying them to a patient leaves
every field outside those five paths, the vitals, the prediction and submittedBy
among them, as it was. -/
theorem put_updates_frame (body : List (String × JSValue)) :
    (∀ kv, kv ∈ buildUpdates body ↔ kv ∈ body ∧ kv.1 ∈ allowedUpdates)
      ∧ ∀ (casts : PathCasts) (patient assigned : Patient),
          assignPaths casts patient (buildUpdates body) = .ok assigned →
          sameOutsideUpdatable patient assigned
            ∧ assigned.prediction = patient.prediction
            ∧ assigned.submittedBy = patient.submittedBy
            ∧ assigned.heartRate = patient.heartRate
            ∧ assigned.oxygenSaturation = patient.oxygenSaturation := by
  refine ⟨?_, ?_⟩
  · intro kv
    simp [buildUpdates]
  · intro casts patient assigned h
    have hframe := assignPaths_frame casts (buildUpdates body) patient assigned h
    refine ⟨hframe, sameOutsideUpdatable_prediction patient assigned hframe, ?_, ?_, ?_⟩
    all_goals
      unfold sameOutsideUpdatable at hframe
      cases patient
      cases assigned
      simp only [Patient.mk.injEq] at hframe
      simp_all

/-- C29 at work: of a body with a status, an age and a prediction only the status is
kept, and applying it changes the status only. -/
theorem put_updates_frame_witness :
    buildUpdates [("status", .string "Triaged"), ("age", .number (JSNum.ofRatio 30 1)),
        ("prediction", .object "[]")] = [("status", .string "Triaged")]
      ∧ sameOutsideUpdatable scoredPatient { scoredPatient with status := "Triaged" } :=
  ⟨by decide,
   ((put_updates_frame [("status", .string "Triaged"), ("age", .number (JSNum.ofRatio 30 1)),
        ("prediction", .object "[]")]).2 plainCasts scoredPatient
      { scoredPatient with status := "Triaged" } rfl).1⟩

end HealthCare
